import Mathlib

set_option maxRecDepth 40000

/-
Verification of the interview-session orchestration and answer-analysis engine
of src/backend/app/main.py, as a shallow embedding: the pure text heuristics are
translated function by function; the stateful WebSocket handler becomes explicit
state passing, with the external generation service, the random draws and the
monotonic clock supplied by an explicit environment value, and persistence
writes (fire-and-forget by design) outside the model.  Python str is modeled by
Lean String / List Char restricted to the ASCII behaviour of lower/strip and of
the regex classes \s, \w and \b: the embedded heuristics operate on the same
code points as the source for all ASCII input.
-/

namespace InterviewCore

/-- Whitespace characters recognised by Python str.strip() and by the regex
class \s (ASCII range). -/
def pyIsSpace (c : Char) : Bool :=
  c = ' ' || c = '\t' || c = '\n' || c = '\r' || c = '\x0b' || c = '\x0c'

/-- Models Python str.strip() with no arguments. -/
def pyStrip (l : List Char) : List Char :=
  ((l.dropWhile pyIsSpace).reverse.dropWhile pyIsSpace).reverse

/-- Models Python str.strip(chars) for an explicit character set. -/
def pyStripSet (chars : List Char) (l : List Char) : List Char :=
  ((l.dropWhile (chars.contains ·)).reverse.dropWhile (chars.contains ·)).reverse

/-- Models Python str.rstrip() (trailing whitespace only). -/
def pyRstrip (l : List Char) : List Char :=
  (l.reverse.dropWhile pyIsSpace).reverse

/-- Models str.lower() on the ASCII range. -/
def lowerStr (l : List Char) : List Char := l.map Char.toLower

/-- Worker for collapseWs; the flag records whether the previous character was
whitespace (so a run contributes a single space). -/
def collapseWsAux : Bool → List Char → List Char
  | _, [] => []
  | inWs, c :: rest =>
    if pyIsSpace c then
      if inWs then collapseWsAux true rest else ' ' :: collapseWsAux true rest
    else c :: collapseWsAux false rest

/-- Models re.sub(r"\s+", " ", s). -/
def collapseWs (l : List Char) : List Char := collapseWsAux false l

/-- Word characters of the regex \w / \b semantics (ASCII range). -/
def isWordChar (c : Char) : Bool := c.isAlphanum || c = '_'

/-- Word-character test lifted to an optional character (absent counts as
non-word, matching \b at the ends of the string). -/
def isWordO : Option Char → Bool
  | none => false
  | some c => isWordChar c

/-- Does the literal phrase occur at the head of s with a word boundary right
after it?  Used for patterns of the shape \bphrase\b where the phrase begins
and ends with word characters (the boundary before is checked by the caller). -/
def phraseHere (phrase s : List Char) : Bool :=
  phrase.isPrefixOf s &&
    (match s.drop phrase.length with
     | [] => true
     | c :: _ => !isWordChar c)

/-- Scanner for containsWordPhrase; prevWord records whether the character just
before the current position is a word character. -/
def cwpAux (phrase : List Char) : Bool → List Char → Bool
  | prevWord, [] => (!prevWord) && phraseHere phrase []
  | prevWord, c :: rest =>
    ((!prevWord) && phraseHere phrase (c :: rest)) || cwpAux phrase (isWordChar c) rest

/-- Models re.search of a word-bounded literal phrase (the pattern
\bphrase\b for a phrase beginning and ending with word characters). -/
def containsWordPhrase (phrase s : List Char) : Bool := cwpAux phrase false s

/-- Models the Python substring test (pat in s). -/
def containsSub (pat : List Char) : List Char → Bool
  | [] => pat.isPrefixOf []
  | c :: rest => pat.isPrefixOf (c :: rest) || containsSub pat rest

/-- Worker for countSub, with fuel bounding the number of scan steps. -/
def countSubAux (pat : List Char) : Nat → List Char → Nat
  | 0, _ => 0
  | _ + 1, [] => 0
  | fuel + 1, c :: rest =>
    if pat.isPrefixOf (c :: rest) then
      1 + countSubAux pat fuel ((c :: rest).drop pat.length)
    else countSubAux pat fuel rest

/-- Models Python str.count for a nonempty pattern (non-overlapping count). -/
def countSub (pat s : List Char) : Nat := countSubAux pat s.length s

/-- Character class of the token regex [a-z']. -/
def tokenClass (c : Char) : Bool := ('a' ≤ c && c ≤ 'z') || c = '\''

/-- Character that follows the first j characters of the run (inside the run,
or the first character after it). -/
def charAfterRun (run : List Char) (next : Option Char) (j : Nat) : Option Char :=
  if j < run.length then run.get? j else next

/-- Word boundary after taking j characters of the run. -/
def boundaryAt (run : List Char) (next : Option Char) (j : Nat) : Bool :=
  isWordO (run.get? (j - 1)) != isWordO (charAfterRun run next j)

/-- Longest j ≥ 1 such that a word boundary follows the first j characters of
the run: the regex backtracking for the trailing \b of \b[a-z']+\b. -/
def bestJ (run : List Char) (next : Option Char) : Option Nat :=
  ((List.range run.length).map (· + 1)).foldl
    (fun acc j => if boundaryAt run next j then some j else acc) none

/-- Scanner for wordTokens: at each position, try to match \b[a-z']+\b; on
success continue after the match, else advance one character.  prev is the
character before the current position; fuel bounds the number of steps. -/
def wtScan : Nat → Option Char → List Char → List (List Char)
  | 0, _, _ => []
  | _ + 1, _, [] => []
  | fuel + 1, prev, c :: rest =>
    if tokenClass c && (isWordO prev != isWordChar c) then
      let run := c :: rest.takeWhile tokenClass
      let next := (rest.dropWhile tokenClass).head?
      match bestJ run next with
      | some j => run.take j :: wtScan fuel (run.get? (j - 1)) ((c :: rest).drop j)
      | none => wtScan fuel (some c) rest
    else wtScan fuel (some c) rest

/-- Models re.findall(r"\b[a-z']+\b", s), the tokenisation used for word
counts and pronoun counts. -/
def wordTokens (s : List Char) : List (List Char) := wtScan (s.length + 1) none s

/-- First normalisation step of _is_non_answer: (text or "").strip().lower(). -/
def lowerOf (s : String) : List Char := lowerStr (pyStrip s.toList)

/-- Characters stripped from the ends of the normalised answer. -/
def normStripChars : List Char := [' ', '.', '!', '?', '\t']

/-- Full normalised form used by _is_non_answer:
re.sub(r"\s+", " ", lower).strip(" .!?\t"). -/
def normalizedOf (s : String) : List Char :=
  pyStripSet normStripChars (collapseWs (lowerOf s))

/-- Canonical refusal phrases matched exactly against the normalised answer. -/
def refusalExact : List String :=
  ["idk", "i don't know", "i do not know", "dont know", "don't know", "no idea",
   "no clue", "not sure", "unsure", "pass", "skip", "i can't answer",
   "i cannot answer"]

/-- Hedge/uncertainty patterns of _is_non_answer, with the regex alternations
expanded to the literal word-bounded phrases they recognise. -/
def hedgePhrases : List String :=
  ["i do not know", "i don't know",
   "i have no idea",
   "no idea",
   "no clue",
   "not sure",
   "unsure",
   "blanking",
   "drawing a blank",
   "can't think of", "cannot think of",
   "i can't think of", "i cannot think of",
   "i don't have an example",
   "i can't remember", "i cannot remember", "i can't recall", "i cannot recall",
   "i haven't done", "i haven't used", "i haven't worked with", "i haven't seen",
   "i haven't heard of",
   "i have not done", "i have not used", "i have not worked with",
   "i have not seen", "i have not heard of",
   "never did", "never done", "never used", "never worked with", "never heard of",
   "not familiar",
   "im not familiar", "i'm not familiar", "i’m not familiar",
   "unfamiliar",
   "can't answer", "cannot answer",
   "pass",
   "skip"]

/-- Recovery continuation phrases checked as plain substrings of the
normalised answer. -/
def recoveryPhrases : List String :=
  [" but ", " however", " i can", " i could", " i'd ", " i would", " i think",
   " i guess", " probably", " my guess", " my approach", " i've ", " i have",
   " i'd start", " i would start", " first,", " for example"]

/-- Embeds _is_non_answer from src/backend/app/main.py. -/
def is_non_answer (text : String) : Bool :=
  let lower := lowerOf text
  if lower.isEmpty then true
  else
    let normalized := normalizedOf text
    if refusalExact.any (fun p => normalized == p.toList) then true
    else if !(hedgePhrases.any (fun p => containsWordPhrase p.toList normalized)) then
      false
    else
      let wordCount := (wordTokens normalized).length
      let hasRecovery := recoveryPhrases.any (fun p => containsSub p.toList normalized)
      if hasRecovery ∧ 9 ≤ wordCount then false
      else decide (wordCount ≤ 24 ∨ normalized.length ≤ 140)

/-- Interview styles (the InterviewerStyle enumeration). -/
inductive InterviewerStyle where
  | supportive
  | neutral
  | cold
deriving DecidableEq

/-- String value of a style (the enum member values). -/
def styleValue : InterviewerStyle → String
  | .supportive => "supportive"
  | .neutral => "neutral"
  | .cold => "cold"

/-- Models membership in InterviewerStyle._value2member_map_ plus the
conversion InterviewerStyle(s). -/
def styleOfString (s : String) : Option InterviewerStyle :=
  if s = "supportive" then some .supportive
  else if s = "neutral" then some .neutral
  else if s = "cold" then some .cold
  else none

/-- Delivery metrics of a user_answer event, after the _coerce_float /
_coerce_int conversions applied by the source (absent or non-numeric values
are none). -/
structure Metrics where
  speakingRate : Option ℚ := none
  pauseRat : Option ℚ := none
  gaze : Option ℚ := none
  fillers : Option Int := none
deriving DecidableEq

/-- Truthy speaking-rate test speaking_rate > bound used by pick_follow_up. -/
def srAbove (speakingRate : Option ℚ) (bound : ℚ) : Bool :=
  match speakingRate with
  | some r => decide (r > bound)
  | none => false

/-- Models the Python condition speaking_rate and speaking_rate > bound (None
and 0.0 are falsy). -/
def srTruthyAbove (speakingRate : Option ℚ) (bound : ℚ) : Bool :=
  match speakingRate with
  | some r => decide (r ≠ 0) && decide (bound < r)
  | none => false

/-- Metric keywords of the numbers rule. -/
def metricWords : List String :=
  ["percent", "%", "ms", "latency", "revenue", "users", "kpi", "roi", "errors",
   "cost"]

/-- Tradeoff keywords of the tradeoff rule. -/
def tradeoffWords : List String :=
  ["tradeoff", "trade-offs", "decision", "chose", "choice", "versus", "vs",
   "constraint"]

/-- Embeds the intent-selection chain inside pick_follow_up (the branch taken
when the answer is not a non-answer). -/
def followUpIntent (answer : String) (speakingRate : Option ℚ) : String :=
  let raw := pyStrip answer.toList
  if 900 < raw.length ∨ srAbove speakingRate 190 = true then "summarize"
  else
    let lower := lowerStr raw
    let hasDigits := raw.any Char.isDigit
    let tokenized := wordTokens lower
    let weCount := (tokenized.filter (· == "we".toList)).length
    let iCount := (tokenized.filter (· == "i".toList)).length
    let hasMetricWords := metricWords.any (fun w => containsSub w.toList lower)
    if raw.length < 160 then "clarify"
    else if !hasDigits && !hasMetricWords then "numbers"
    else if iCount + 2 < weCount then "role"
    else if tradeoffWords.any (fun w => containsSub w.toList lower) then "tradeoff"
    else "impact"

/-- Models random.choice(l) with the draw index supplied by the environment. -/
def pyChoice (l : List String) (k : Nat) : String := l.getD (k % l.length) ""

/-- The FOLLOW_UPS style-level fallback bank. -/
def followUpsBank : InterviewerStyle → List String
  | .supportive =>
    ["Nice—can you share a detail that shows your impact?",
     "How did that experience shape how you collaborate now?"]
  | .neutral =>
    ["What was your exact role, and what did you deliver?",
     "What would you do differently if you faced this again?"]
  | .cold =>
    ["Your answer felt light on specifics. Give numbers.",
     "Time is short—summarize the critical decision you made."]

/-- The FOLLOW_UP_INTENTS bank: phrase options per (intent, style). -/
def intentBank (intent : String) (style : InterviewerStyle) : Option (List String) :=
  if intent = "clarify" then some (match style with
    | .supportive =>
      ["Can you share one concrete example of what you personally did?",
       "What’s one specific action you took that made the difference?"]
    | .neutral =>
      ["What exactly did you do, step by step?",
       "What was your role, and what did you deliver?"]
    | .cold =>
      ["You’re being vague. What did you do?",
       "Cut the fluff—what did you deliver?"])
  else if intent = "numbers" then some (match style with
    | .supportive =>
      ["What metric moved? Even a rough before/after is helpful.",
       "Can you quantify the impact—time saved, errors reduced, or revenue influenced?"]
    | .neutral =>
      ["Give numbers: scope, timeline, and measurable outcome.",
       "Quantify the result. What changed, and by how much?"]
    | .cold =>
      ["Numbers. Now.",
       "You didn’t quantify anything. Give me metrics."])
  else if intent = "role" then some (match style with
    | .supportive =>
      ["What part was you vs the team?",
       "Where did you personally take ownership?"]
    | .neutral =>
      ["What was your role versus others on the team?",
       "What decisions were yours, and what did you execute?"]
    | .cold =>
      ["Stop saying “we.” What did you do?",
       "What exactly was your responsibility?"])
  else if intent = "tradeoff" then some (match style with
    | .supportive =>
      ["What tradeoff did you consider, and what pushed you to that choice?",
       "What options did you reject, and why?"]
    | .neutral =>
      ["What tradeoffs did you make, and why were they acceptable?",
       "What constraints shaped your decision?"]
    | .cold =>
      ["What did you sacrifice, and why was it worth it?",
       "What was the risk, and how did you mitigate it?"])
  else if intent = "impact" then some (match style with
    | .supportive =>
      ["What was the outcome, and who benefited?",
       "How did you know it worked?"]
    | .neutral =>
      ["What was the result?",
       "What changed because of your work?"]
    | .cold =>
      ["What changed because of you?",
       "What’s the bottom-line impact?"])
  else if intent = "summarize" then some (match style with
    | .supportive =>
      ["Can you summarize that in one crisp sentence?",
       "Give me the headline in one sentence, then stop."]
    | .neutral =>
      ["Give a one-sentence headline.",
       "Summarize in one sentence, then we’ll go deeper."]
    | .cold =>
      ["One sentence. Go.",
       "Summarize in one line."])
  else none

/-- Embeds pick_follow_up from src/backend/app/main.py; the random draw index
comes from the environment. -/
def pick_follow_up (style : InterviewerStyle) (answer : String)
    (speakingRate : Option ℚ) (pack : String) (choice : Nat) : String :=
  let raw := (pyStrip answer.toList).asString
  if is_non_answer raw then
    let packHint := lowerStr pack.toList
    let isBehavioral := containsSub "behavior".toList packHint ||
      containsSub "leadership".toList packHint
    if isBehavioral then
      match style with
      | .supportive => "That’s okay — pick a different (even small) example and walk me through what you did and what changed?"
      | .neutral => "Okay — pick a different example and tell me what you did and what changed?"
      | .cold => "Pick another example. What did you do, and what was the result?"
    else
      match style with
      | .supportive => "That’s okay — if you’re unsure, talk me through how you’d approach figuring it out. What would you check first?"
      | .neutral => "Okay — how would you approach figuring it out? What’s your first step?"
      | .cold => "Fine. What’s your approach? What’s the first step?"
  else
    let intent := followUpIntent answer speakingRate
    match intentBank intent style with
    | some options =>
      if options.isEmpty then pyChoice (followUpsBank style) choice
      else pyChoice options choice
    | none => pyChoice (followUpsBank style) choice

/-- Coaching tip as (summary, detail). -/
abbrev Tip := String × String

/-- Stable insertion for sortDescPrio: the element goes after every strictly
higher priority and before equal ones that come later in the list. -/
def insertDescPrio (x : Int × Tip) : List (Int × Tip) → List (Int × Tip)
  | [] => [x]
  | y :: ys => if x.1 < y.1 then y :: insertDescPrio x ys else x :: y :: ys

/-- Stable sort by descending integer priority; models
candidates.sort(key=priority, reverse=True). -/
def sortDescPrio : List (Int × Tip) → List (Int × Tip)
  | [] => []
  | x :: xs => insertDescPrio x (sortDescPrio xs)

/-- Deduplicate by tip summary and keep at most n tips, in order. -/
def takeTips : List (Int × Tip) → List String → Nat → List Tip
  | [], _, _ => []
  | _, _, 0 => []
  | (_, tip) :: rest, seen, n + 1 =>
    if seen.contains tip.1 then takeTips rest seen (n + 1)
    else tip :: takeTips rest (tip.1 :: seen) n

/-- Style-toned detail text by tone (generate_coaching). -/
def coachTone : InterviewerStyle → String
  | .supportive => "Encouraging: "
  | .neutral => ""
  | .cold => "Direct: "

/-- Embeds generate_coaching from src/backend/app/main.py. -/
def generate_coaching (style : InterviewerStyle) (answer : String) (m : Metrics) :
    List Tip :=
  let raw := pyStrip answer.toList
  if is_non_answer raw.asString then
    [("Turn “I don’t know” into signal",
      coachTone style ++ "It’s okay to say you don’t know—then add one sentence on how you’d find out (first check, assumption to validate, or experiment to run)."),
     ("Ask one clarifying constraint",
      coachTone style ++ "If you’re stuck, ask a quick clarifier (scale, goals, constraints), then state your first step. That reads confident instead of blank.")]
  else
    let length := raw.length
    let hasDigits := raw.any Char.isDigit
    let hasPauseText := containsSub "...".toList raw || containsSub "  ".toList raw
    let lower := lowerStr raw
    let fillersText : Int :=
      ((countSub " um".toList lower + countSub " uh".toList lower +
        countSub " like ".toList lower : Nat) : Int)
    let fillers : Int := match m.fillers with
      | some n => n
      | none => fillersText
    let c1 : List (Int × Tip) :=
      if length < 80 ∨ (length < 140 ∧ !hasDigits) then
        [((if length < 80 then 70 else 55 : Int),
          ("Add a concrete detail",
           "Give one number (scope, latency, users) or one decision you made so impact is unmistakable."))]
      else []
    let c2 : List (Int × Tip) :=
      if 520 < length then
        [((45 : Int),
          ("Lead with a headline",
           "Start with one sentence (what you did + outcome), then 2–3 supporting facts. Stop before you ramble."))]
      else []
    let c3 : List (Int × Tip) :=
      match m.speakingRate with
      | some r =>
        if 175 < r then
          [((if 195 < r then 80 else 65 : Int),
            ("Slow your pace",
             "Aim for ~120–160 wpm. Add a half‑beat pause after key nouns (tool, metric, outcome)."))]
        else if r < 105 ∧ 120 ≤ length then
          [((55 : Int),
            ("Tighten your tempo",
             "Speed up slightly by shortening sentences. Remove extra setup and get to the decision/result sooner."))]
        else []
      | none => []
    let c4 : List (Int × Tip) :=
      match m.pauseRat with
      | some p =>
        if (0.18 : ℚ) < p then
          [((if (0.26 : ℚ) < p then 70 else 55 : Int),
            ("Reduce long pauses",
             "Take one planning pause before you start, then keep sentences flowing. If you need time, say “Let me think for a second.”"))]
        else if p < (0.05 : ℚ) ∧ srTruthyAbove m.speakingRate 165 = true then
          [((50 : Int),
            ("Add deliberate micro-pauses",
             "A tiny pause before your key point makes you sound more confident (and improves comprehension)."))]
        else []
      | none => []
    let c5 : List (Int × Tip) :=
      match m.gaze with
      | some g =>
        if g < 60 then
          [((if g < 45 then 60 else 50 : Int),
            ("Re-center eye contact",
             "Look at the camera for the first and last sentence. Move your notes closer to the lens to reduce eye travel."))]
        else []
      | none => []
    let c6 : List (Int × Tip) :=
      if 1 < fillers then
        [((if 3 < fillers then 60 else 50 : Int),
          ("Replace fillers with silence",
           "When you feel “um/like” coming, pause silently and restart the sentence. One clean pause beats three fillers."))]
      else if hasPauseText ∧ m.pauseRat = none then
        [((40 : Int),
          ("Smooth your pacing",
           "Finish sentences before pausing; keep your eyes steady through the final word."))]
      else []
    let candidates := c1 ++ c2 ++ c3 ++ c4 ++ c5 ++ c6
    let candidates :=
      if candidates.isEmpty then
        [((10 : Int),
          ("Keep the structure",
           "You’re clear and concise. Next answer: add one crisp metric to make it unforgettable."))]
      else candidates
    let tips := takeTips (sortDescPrio candidates) [] 2
    tips.map (fun t => (t.1, coachTone style ++ t.2))

/-- JSON values produced by json.loads (int and float collapse into one
numeric constructor, an adequate model for the comparisons the core makes). -/
inductive JVal where
  | null
  | bool (b : Bool)
  | num (q : ℚ)
  | str (s : String)
  | arr (items : List JVal)
  | obj (fields : List (String × JVal))

/-- JSON whitespace. -/
def jsonWsChar (c : Char) : Bool := c = ' ' || c = '\t' || c = '\n' || c = '\r'

/-- Skip JSON whitespace. -/
def skipJsonWs (l : List Char) : List Char := l.dropWhile jsonWsChar

/-- Hexadecimal digit value. -/
def hexVal (c : Char) : Option Nat :=
  if '0' ≤ c ∧ c ≤ '9' then some (c.toNat - '0'.toNat)
  else if 'a' ≤ c ∧ c ≤ 'f' then some (c.toNat - 'a'.toNat + 10)
  else if 'A' ≤ c ∧ c ≤ 'F' then some (c.toNat - 'A'.toNat + 10)
  else none

/-- Parse the body of a JSON string (after the opening quote), returning the
decoded characters and the remainder; fuel bounds the scan. -/
def parseJString : Nat → List Char → Option (List Char × List Char)
  | 0, _ => none
  | _ + 1, [] => none
  | fuel + 1, c :: rest =>
    if c = '"' then some ([], rest)
    else if c.toNat < 32 then none
    else if c ≠ '\\' then
      match parseJString fuel rest with
      | some (s, r2) => some (c :: s, r2)
      | none => none
    else
      match rest with
      | [] => none
      | e :: rest2 =>
        let decoded : Option (Char × List Char) :=
          if e = '"' then some ('"', rest2)
          else if e = '\\' then some ('\\', rest2)
          else if e = '/' then some ('/', rest2)
          else if e = 'b' then some ('\x08', rest2)
          else if e = 'f' then some ('\x0c', rest2)
          else if e = 'n' then some ('\n', rest2)
          else if e = 'r' then some ('\r', rest2)
          else if e = 't' then some ('\t', rest2)
          else if e = 'u' then
            match rest2 with
            | a :: b :: c3 :: d :: rest3 =>
              match hexVal a, hexVal b, hexVal c3, hexVal d with
              | some x1, some x2, some x3, some x4 =>
                some (Char.ofNat (((x1 * 16 + x2) * 16 + x3) * 16 + x4), rest3)
              | _, _, _, _ => none
            | _ => none
          else none
        match decoded with
        | some (ch, r2) =>
          match parseJString fuel r2 with
          | some (s, r3) => some (ch :: s, r3)
          | none => none
        | none => none

/-- Natural value of a digit run. -/
def digitsVal (l : List Char) : Nat :=
  l.foldl (fun a c => a * 10 + (c.toNat - '0'.toNat)) 0

/-- Parse a JSON number per the strict JSON grammar used by json.loads. -/
def parseJNumber (l : List Char) : Option (ℚ × List Char) :=
  let signAndRest : ℚ × List Char :=
    match l with
    | '-' :: r => (-1, r)
    | _ => (1, l)
  let sign := signAndRest.1
  let l1 := signAndRest.2
  let intDigits := l1.takeWhile Char.isDigit
  let l2 := l1.drop intDigits.length
  if intDigits.isEmpty then none
  else if 1 < intDigits.length ∧ intDigits.head? = some '0' then none
  else
    let step1 : Option (ℚ × List Char) :=
      match l2 with
      | '.' :: r =>
        let fd := r.takeWhile Char.isDigit
        if fd.isEmpty then none
        else some ((digitsVal intDigits : ℚ) + (digitsVal fd : ℚ) / ((10 : ℚ) ^ fd.length),
          r.drop fd.length)
      | _ => some ((digitsVal intDigits : ℚ), l2)
    match step1 with
    | none => none
    | some (mant, l3) =>
      let step2 : Option (ℚ × List Char) :=
        match l3 with
        | e :: r =>
          if e = 'e' ∨ e = 'E' then
            let esignAndRest : Int × List Char :=
              match r with
              | '+' :: rr => (1, rr)
              | '-' :: rr => (-1, rr)
              | _ => (1, r)
            let ed := esignAndRest.2.takeWhile Char.isDigit
            if ed.isEmpty then none
            else some (mant * ((10 : ℚ) ^ ((esignAndRest.1 * (digitsVal ed : Int)) : ℤ)),
              esignAndRest.2.drop ed.length)
          else some (mant, l3)
        | [] => some (mant, l3)
      match step2 with
      | none => none
      | some (v, l4) => some (sign * v, l4)

mutual

/-- Parse one JSON value; fuel bounds the nesting depth. -/
def parseJValue : Nat → List Char → Option (JVal × List Char)
  | 0, _ => none
  | fuel + 1, l =>
    match skipJsonWs l with
    | [] => none
    | c :: rest =>
      if c = '\x7b' then
        match skipJsonWs rest with
        | '\x7d' :: r => some (.obj [], r)
        | _ =>
          match parseJMembers fuel rest with
          | some (ms, r) => some (.obj ms, r)
          | none => none
      else if c = '[' then
        match skipJsonWs rest with
        | ']' :: r => some (.arr [], r)
        | _ =>
          match parseJItems fuel rest with
          | some (items, r) => some (.arr items, r)
          | none => none
      else if c = '"' then
        match parseJString (rest.length + 1) rest with
        | some (s, r) => some (.str s.asString, r)
        | none => none
      else if c = 't' then
        if "rue".toList.isPrefixOf rest then some (.bool true, rest.drop 3) else none
      else if c = 'f' then
        if "alse".toList.isPrefixOf rest then some (.bool false, rest.drop 4) else none
      else if c = 'n' then
        if "ull".toList.isPrefixOf rest then some (.null, rest.drop 3) else none
      else
        match parseJNumber (c :: rest) with
        | some (q, r) => some (.num q, r)
        | none => none

/-- Parse the members of a JSON object (after the opening brace, at least one
member present). -/
def parseJMembers : Nat → List Char → Option (List (String × JVal) × List Char)
  | 0, _ => none
  | fuel + 1, l =>
    match skipJsonWs l with
    | '"' :: rest =>
      match parseJString (rest.length + 1) rest with
      | some (keyChars, r1) =>
        match skipJsonWs r1 with
        | ':' :: r2 =>
          match parseJValue fuel r2 with
          | some (v, r3) =>
            match skipJsonWs r3 with
            | ',' :: r4 =>
              match parseJMembers fuel r4 with
              | some (ms, r5) => some ((keyChars.asString, v) :: ms, r5)
              | none => none
            | '\x7d' :: r4 => some ([(keyChars.asString, v)], r4)
            | _ => none
          | none => none
        | _ => none
      | none => none
    | _ => none

/-- Parse the items of a JSON array (after the opening bracket, at least one
item present). -/
def parseJItems : Nat → List Char → Option (List JVal × List Char)
  | 0, _ => none
  | fuel + 1, l =>
    match parseJValue fuel l with
    | some (v, r1) =>
      match skipJsonWs r1 with
      | ',' :: r2 =>
        match parseJItems fuel r2 with
        | some (items, r3) => some (v :: items, r3)
        | none => none
      | ']' :: r2 => some ([v], r2)
      | _ => none
    | none => none

end

/-- Models json.loads on the standard JSON grammar (the NaN/Infinity
extensions of the Python parser are not modelled; a trailing remainder beyond
whitespace is a parse failure, as in Python). -/
def jsonLoads (s : String) : Option JVal :=
  let l := s.toList
  match parseJValue (l.length + 1) l with
  | some (v, rest) => if (skipJsonWs rest).isEmpty then some v else none
  | none => none

/-- Models the regex search for \x7b.*\x7d with DOTALL: from the first opening
brace through the last closing brace at or after it, if any. -/
def braceSpan (l : List Char) : Option (List Char) :=
  match l.dropWhile (· ≠ '\x7b') with
  | [] => none
  | rest =>
    if rest.contains '\x7d' then
      some (rest.reverse.dropWhile (· ≠ '\x7d')).reverse
    else none

/-- Embeds _extract_json_block from src/backend/app/main.py. -/
def extract_json_block (text : String) : Option JVal :=
  match jsonLoads text with
  | some v => some v
  | none =>
    match braceSpan text.toList with
    | some sub => jsonLoads sub.asString
    | none => none

/-- Result of applying Python int() to an arbitrary payload value: either the
integer it converts to, or the TypeError/ValueError case. -/
inductive PyInt where
  | val (n : Int)
  | bad
deriving DecidableEq

/-- Embeds _coerce_bounded_int from src/backend/app/main.py. -/
def coerce_bounded_int : PyInt → Int → Int → Option Int
  | .bad, _, _ => none
  | .val n, lo, hi => some (max lo (min hi n))

/-- An element of a payload list: a string, or a value of any other type. -/
inductive PyItem where
  | str (s : String)
  | other
deriving DecidableEq

/-- Models re.sub(r"^\s*[-*•]\s*", "", text): strip one leading bullet with
its surrounding whitespace, if present. -/
def bulletStrip (l : List Char) : List Char :=
  let l1 := l.dropWhile pyIsSpace
  match l1 with
  | c :: rest =>
    if c = '-' ∨ c = '*' ∨ c = '•' then rest.dropWhile pyIsSpace else l
  | [] => l

/-- Sanitise a single custom question; none when it cleans to empty. -/
def sanitizeOne (item : String) : Option String :=
  let t1 := pyStrip item.toList
  let t2 := pyStrip (bulletStrip t1)
  let t3 := pyStrip (collapseWs t2)
  if t3.isEmpty then none
  else
    let t4 := if 280 < t3.length then pyRstrip (t3.take 280) else t3
    let t5 := if t4.getLast? = some '?' then t4 else t4 ++ ['?']
    some t5.asString

/-- Collect sanitised questions, keeping at most n (the source caps at 24). -/
def sanitizeCollect : List PyItem → Nat → List String
  | [], _ => []
  | _, 0 => []
  | .other :: rest, n => sanitizeCollect rest n
  | .str s :: rest, n + 1 =>
    match sanitizeOne s with
    | some q => q :: sanitizeCollect rest n
    | none => sanitizeCollect rest (n + 1)

/-- De-duplicate by lower-cased text, preserving order. -/
def dedupeLower : List String → List String → List String
  | [], _ => []
  | q :: rest, seen =>
    if seen.contains (lowerStr q.toList).asString then dedupeLower rest seen
    else q :: dedupeLower rest ((lowerStr q.toList).asString :: seen)

/-- Embeds _sanitize_custom_questions from src/backend/app/main.py (none
models a payload value that is not a list). -/
def sanitize_custom_questions : Option (List PyItem) → List String
  | none => []
  | some items => dedupeLower (sanitizeCollect items 24) []

/-- The QUESTION_BANK style-level catalog. -/
def questionBank : InterviewerStyle → List String
  | .supportive =>
    ["Tell me about a project you loved working on and why.",
     "What is a strength you’re proud of, and how do you use it on teams?"]
  | .neutral =>
    ["Walk me through a challenging problem you recently solved.",
     "Describe a time you disagreed with a teammate. What happened?"]
  | .cold =>
    ["Why should we trust you with high-stakes work?",
     "Explain a recent mistake. How did you recover? Be concise."]

/-- The QUESTION_PACKS catalog: question list per (pack, difficulty). -/
def questionPacks (pack diff : String) : Option (List String) :=
  if pack = "swe_behavioral" then
    if diff = "standard" then some
      ["Tell me about a time you had to make a tradeoff. What did you choose and why?",
       "Describe a disagreement with a teammate. How did you resolve it?",
       "Tell me about a project where you took ownership end-to-end. What was the outcome?",
       "Describe a time you got critical feedback. What did you change afterward?",
       "Tell me about a time you improved a process. What changed because of you?",
       "What’s a technical decision you’re proud of? Walk me through your reasoning."]
    else if diff = "hard" then some
      ["Pick one project. In 60 seconds, tell me the problem, your role, and the measurable outcome.",
       "Tell me about a time you missed the mark. What did you do next week to fix it?",
       "Describe a tradeoff you made under time pressure. What did you sacrifice, and what did you protect?",
       "Tell me about a conflict you caused. What would your teammate say you did wrong?",
       "What’s the hardest bug you’ve shipped? How did you detect and remediate it?",
       "Explain your impact with numbers. If you don’t have exact metrics, estimate responsibly."]
    else none
  else if pack = "swe_system_design" then
    if diff = "standard" then some
      ["Design a URL shortener. What are your APIs, storage, and scaling plan?",
       "Design a real-time chat system. How do you handle delivery, ordering, and offline clients?",
       "Design a rate limiter for an API gateway. What data structures do you use?",
       "Design a notifications system (email/push). How do you handle retries and deduplication?",
       "Design a file upload service. How do you handle large files and resumable uploads?",
       "Design a metrics pipeline for product analytics. What is your event model and storage?"]
    else if diff = "hard" then some
      ["Design a feed ranking service. What are your latency targets, failure modes, and fallbacks?",
       "Design a multi-tenant system. How do you isolate noisy neighbors and enforce quotas?",
       "Design a caching layer. When does caching hurt correctness, and how do you invalidate safely?",
       "Design an idempotent payments API. What are your consistency guarantees?",
       "Design a search autocomplete service. How do you keep it fast and fresh?",
       "Design a logging pipeline. How do you protect PII and handle high-cardinality labels?"]
    else none
  else if pack = "data_science_ml" then
    if diff = "standard" then some
      ["Explain a model you deployed. How did you evaluate it and monitor drift?",
       "Design an A/B test for a ranking change. What metrics and pitfalls matter?",
       "Walk me through feature engineering for a sparse, high-cardinality dataset.",
       "How would you debug a sudden drop in model performance in production?",
       "Design a recommendation system for a new product with cold start.",
       "How do you decide between a simpler baseline and a more complex model?"]
    else if diff = "hard" then some
      ["You have label leakage. How do you detect it and fix the pipeline end-to-end?",
       "Design an online learning system. What are your safeguards against feedback loops?",
       "Explain precision/recall tradeoffs for an imbalanced classifier and how you pick thresholds.",
       "Design a monitoring suite: drift, bias, latency, and business KPIs. What alerts fire first?",
       "Your model is unfair across a subgroup. What is your investigation and mitigation plan?",
       "Design an LLM evaluation harness for a support agent. How do you measure correctness and harm?"]
    else none
  else if pack = "leadership" then
    if diff = "standard" then some
      ["Tell me about a time you led without authority. What did you do?",
       "Describe a project that went off track. How did you re-plan and communicate?",
       "Tell me about a stakeholder conflict. How did you align priorities?",
       "Describe a time you mentored someone. What changed afterward?",
       "How do you balance speed vs quality on a team?",
       "Tell me about a time you changed your mind after learning new info."]
    else if diff = "hard" then some
      ["A project is late and stakeholders are angry. What do you do in the next 48 hours?",
       "Tell me about a time you made a decision with incomplete data. What guardrails did you use?",
       "You have to cut scope by 40%. What do you cut, and how do you sell it?",
       "Describe a failure you were responsible for. What did you change systemically?",
       "How do you handle a high performer who is toxic to the team?",
       "Tell me about a time you pushed back on leadership. What did it cost you?"]
    else none
  else none

/-- Membership in QUESTION_PACKS. -/
def packExists (pack : String) : Bool :=
  pack = "swe_behavioral" || pack = "swe_system_design" ||
  pack = "data_science_ml" || pack = "leadership"

/-- Embeds pick_question from src/backend/app/main.py. -/
def pick_question (style : InterviewerStyle) (turn : Nat) (pack difficulty : String) :
    String :=
  let diff := if difficulty = "" then "standard" else difficulty
  let items :=
    if pack ≠ "" ∧ packExists pack = true then
      match questionPacks pack diff with
      | some l => if l.isEmpty then (questionPacks pack "standard").getD [] else l
      | none => (questionPacks pack "standard").getD []
    else questionBank style
  items.getD (turn % items.length) ""

/-- Embeds _non_answer_ack_prefix. -/
def non_answer_ack_pre : InterviewerStyle → String
  | .supportive => "No worries — let's move on."
  | .neutral => "Okay — let's move on."
  | .cold => "Alright. Next."

/-- Embeds _non_answer_reframe_preface. -/
def non_answer_reframe_pre : InterviewerStyle → String
  | .supportive => "No worries."
  | .neutral => "Okay."
  | .cold => "Alright."

/-- The acknowledgment preface options of _answer_ack_preface. -/
def answerAckOptions : InterviewerStyle → List String
  | .supportive => ["Thanks — got it.", "Got it — thank you.", "Okay, thanks."]
  | .neutral => ["Got it.", "Okay.", "Understood."]
  | .cold => ["Okay.", "Alright."]

/-- Embeds _answer_ack_preface; the random draw comes from the environment. -/
def answer_ack_pre (style : InterviewerStyle) (choice : Nat) : String :=
  pyChoice (answerAckOptions style) choice

/-- Leading acknowledgment words of _question_starts_with_ack. -/
def ackLeads : List String :=
  ["no worries", "no problem", "ok", "okay", "alright", "understood", "got it",
   "fair", "thanks", "thank you"]

/-- Tests the anchored pattern ^(nice|great)\s*(,|—|-)\s*. -/
def niceGreatLead (l : List Char) : Bool :=
  let check (w : String) : Bool :=
    if w.toList.isPrefixOf l then
      match (l.drop w.length).dropWhile pyIsSpace with
      | c :: _ => c = ',' || c = '—' || c = '-'
      | [] => false
    else false
  check "nice" || check "great"

/-- Embeds _question_starts_with_ack from src/backend/app/main.py. -/
def question_starts_with_ack (question : String) : Bool :=
  let lower := lowerStr (pyStrip question.toList)
  if lower.isEmpty then false
  else
    ackLeads.any (fun p => phraseHere p.toList lower) ||
    phraseHere "that's okay".toList lower || phraseHere "that’s okay".toList lower ||
    phraseHere "that's ok".toList lower || phraseHere "that’s ok".toList lower ||
    niceGreatLead lower ||
    phraseHere "good question".toList lower

/-- Embeds _session_end_message from src/backend/app/main.py. -/
def session_end_message (style : InterviewerStyle) (reason : String) : String :=
  if reason = "time_limit" then
    match style with
    | .supportive => "That’s time — nice work. Let’s review."
    | .neutral => "Time’s up. Let’s review."
    | .cold => "Time. Review your answers."
  else if reason = "max_questions" then
    match style with
    | .supportive => "That’s the end of the set — nice work. Let’s review."
    | .neutral => "That’s the end of the set. Let’s review."
    | .cold => "That’s the set. Review."
  else
    match style with
    | .supportive => "Okay — we’ll stop here. Let’s review."
    | .neutral => "Okay — stopping here. Let’s review."
    | .cold => "Stop. Review."

/-- Patterns of _is_answer_seeking_clarification, with the optional regex
groups expanded to the literal word-bounded phrases they recognise. -/
def clarifySeekPhrases : List String :=
  ["what should i say", "what do i say",
   "write me an answer", "write an answer",
   "give me a sample answer", "give a sample answer", "give me sample answer",
   "give sample answer",
   "give me the answer", "give the answer",
   "how would you answer", "what is the best answer", "can you answer"]

/-- Embeds _is_answer_seeking_clarification from src/backend/app/main.py. -/
def is_answer_seeking_clarification (text : String) : Bool :=
  let lower := lowerStr (pyStrip text.toList)
  if lower.isEmpty then false
  else clarifySeekPhrases.any (fun p => containsWordPhrase p.toList lower)

/-- Embeds refusal_clarification_response from src/backend/app/main.py. -/
def refusal_clarification_response (style : InterviewerStyle)
    (promptQuestion : String) : String :=
  let pq := (pyStrip promptQuestion.toList).asString
  let restated := if pq.toList.getLast? = some '?' then pq else pq ++ "?"
  let message := match style with
    | .supportive => "I can clarify what I’m looking for, but I can’t write the answer for you. Pick one example, lead with the outcome, then walk me through your actions and the measurable result."
    | .cold => "I’m not giving you the answer. Pick one example and give me: context, what you did, and the outcome—numbers if you have them."
    | .neutral => "I can clarify expectations, but I won’t provide a model answer. Use one concrete example and structure it as situation, task, actions, result."
  (pyStrip (message ++ " Original prompt: " ++ restated).toList).asString

/-- Embeds fallback_clarification_response from src/backend/app/main.py. -/
def fallback_clarification_response (style : InterviewerStyle)
    (promptQuestion clarificationQuestion pack difficulty : String) : String :=
  let pq := (pyStrip promptQuestion.toList).asString
  let cq := (pyStrip clarificationQuestion.toList).asString
  let diff := (pyStrip (if difficulty = "" then "standard" else difficulty).toList).asString
  let tonePre := match style with
    | .supportive => "Good question — "
    | .neutral => "Clarifying — "
    | .cold => "Listen — "
  let packHint := lowerStr pack.toList
  let isSystemDesign := containsSub "system".toList packHint ||
    containsSub "design".toList packHint
  let guidance :=
    if diff = "hard" ∧ isSystemDesign = true then
      "Be decisive: state assumptions (traffic, SLOs, data size) and tradeoffs, then outline APIs, storage, and failure modes."
    else if diff = "hard" then
      "Be concise: lead with the outcome, then 2–3 specific actions and one measurable result."
    else if isSystemDesign then
      "State your assumptions explicitly (scale/traffic, latency, consistency), then focus on APIs, data model, and scaling. If constraints aren’t specified, choose reasonable ones and justify them."
    else
      "Pick one concrete example and answer with STAR (situation, task, actions, result). If timeframe/scope isn’t specified, a recent 1–2 year example is fine; lead with the outcome."
  let restated := if pq.toList.getLast? = some '?' then pq else pq ++ "?"
  let resp := tonePre ++ guidance
  let resp := if cq ≠ "" then resp ++ " On your question: " ++ cq else resp
  (pyStrip (resp ++ " Original prompt: " ++ restated).toList).asString

/-- Per-connection session state (the SessionState class; the opaque session
id and the free-text accent/notes fields carry no control flow and are left
out of the model). -/
structure SessionState where
  style : InterviewerStyle
  group : String
  consented : Bool
  pack : String
  difficulty : String
  turn : Nat
  lastQuestion : Option String
  history : List (String × String)
  awaitingFollowup : Bool
  maxQuestions : Option Int
  durationSeconds : Option Int
  sessionStartedAt : Option ℚ
  sessionEndsAt : Option ℚ
  customQuestions : List String
  customQueue : List String
  ended : Bool
deriving DecidableEq

/-- The SessionState.__init__ defaults (state of a freshly accepted
connection). -/
def initialState : SessionState :=
  { style := .neutral, group := "treatment", consented := false,
    pack := "swe_behavioral", difficulty := "standard",
    turn := 0, lastQuestion := none, history := [], awaitingFollowup := false,
    maxQuestions := none, durationSeconds := none,
    sessionStartedAt := none, sessionEndsAt := none,
    customQuestions := [], customQueue := [], ended := false }

/-- Inbound events after JSON decoding and field extraction (string payload
fields model str-or-absent values; unknown carries an unrecognised type
string, nonStringType a non-string "type" field). -/
inductive Event where
  | startSession (style group pack difficulty : Option String)
      (maxQuestions durationSeconds : PyInt)
      (customQuestions : Option (List PyItem)) (consent : Bool)
  | switchStyle (style : Option String)
  | userClarification (text : String)
  | userAnswer (answer : String) (metrics : Metrics)
  | ping
  | checkin
  | telemetryEvent
  | unknown (msgType : String)
  | nonStringType
deriving DecidableEq

/-- Environment of one event: results of the external generation calls (none
models the unavailable outcome), the random draw indices, and the monotonic
clock reading. -/
structure Env where
  llmQuestion : Option String := none
  llmCoaching : Option (Option String × List Tip) := none
  llmClarification : Option String := none
  followChoice : Nat := 0
  ackChoice : Nat := 0
  now : ℚ := 0

/-- Outbound messages (ws.send_json payloads, reduced to the fields the spec
speaks about), with close modelling ws.close(). -/
inductive Msg where
  | sessionStarted (turn : Nat) (style : InterviewerStyle) (pack difficulty : String)
      (maxQuestions durationSeconds : Option Int) (customCount : Nat)
  | styleSwitched (style : InterviewerStyle)
  | question (turn : Nat) (question : String) (style : InterviewerStyle)
      (source : String) (preface : Option String)
  | interviewerMessage (turn : Nat) (style : InterviewerStyle) (message : String)
  | clarification (turn : Nat) (message : String) (source : String)
  | tips (turn : Nat) (items : List Tip)
  | sessionEnded (turn : Nat) (reason : String) (message : String)
  | pong
  | checkinLogged
  | error (message : String)
  | close
deriving DecidableEq

/-- Recogniser for question messages. -/
def Msg.isQuestionMsg : Msg → Bool
  | .question _ _ _ _ _ => true
  | _ => false

/-- Recogniser for terminal session_ended messages. -/
def Msg.isSessionEndedMsg : Msg → Bool
  | .sessionEnded _ _ _ => true
  | _ => false

/-- Recogniser for the connection close. -/
def Msg.isCloseMsg : Msg → Bool
  | .close => true
  | _ => false

/-- Recogniser for error messages. -/
def Msg.isErrorMsg : Msg → Bool
  | .error _ => true
  | _ => false

/-- Text and source of a question message that is not a follow-up (the primary
questions of a run). -/
def Msg.primaryQuestionData : Msg → Option (String × String)
  | .question _ q _ src _ => if src = "follow_up" then none else some (q, src)
  | _ => none

/-- Start-event recogniser. -/
def Event.isStart : Event → Bool
  | .startSession _ _ _ _ _ _ _ _ => true
  | _ => false

/-- Answer-event recogniser. -/
def Event.isAnswer : Event → Bool
  | .userAnswer _ _ => true
  | _ => false

/-- Embeds end_session from src/backend/app/main.py (the terminal send is
assumed delivered and the best-effort telemetry write is outside the model). -/
def end_session (state : SessionState) (reason : String) : SessionState × List Msg :=
  if state.ended then (state, [])
  else
    ({ state with ended := true },
     [Msg.sessionEnded state.turn reason (session_end_message state.style reason),
      Msg.close])

/-- Models the Python slice l[-n:]. -/
def lastN (n : Nat) (l : List (String × String)) : List (String × String) :=
  l.drop (l.length - n)

/-- The question an incoming answer is recorded against:
state.last_question or pick_question(...). -/
def askedQuestion (state : SessionState) : String :=
  match state.lastQuestion with
  | some q =>
    if q = "" then pick_question state.style state.turn state.pack state.difficulty
    else q
  | none => pick_question state.style state.turn state.pack state.difficulty

/-- Embeds send_question from src/backend/app/main.py; the generation result
comes from the environment, and the question telemetry write is outside the
model. -/
def send_question (env : Env) (state : SessionState) (overrideQ : Option String)
    (source : Option String) : SessionState × List Msg :=
  let src0 := source.getD "llm"
  let hasOverride : Bool := match overrideQ with
    | some q => decide (q ≠ "")
    | none => false
  let chosen : String × String × List String :=
    if hasOverride then (src0, overrideQ.getD "", state.customQueue)
    else
      match state.customQueue with
      | q :: rest => ("custom", q, rest)
      | [] =>
        match env.llmQuestion with
        | some q => (src0, q, state.customQueue)
        | none =>
          ("fallback",
           pick_question state.style state.turn state.pack state.difficulty,
           state.customQueue)
  let questionSource := chosen.1
  let question := chosen.2.1
  let queue := chosen.2.2
  let preface : Option String :=
    match state.history.getLast? with
    | none => none
    | some (_, lastAnswer) =>
      let p :=
        if is_non_answer lastAnswer then
          if questionSource ≠ "follow_up" then non_answer_ack_pre state.style
          else non_answer_reframe_pre state.style
        else answer_ack_pre state.style env.ackChoice
      if p ≠ "" ∧ question_starts_with_ack question = true then none else some p
  let state1 := { state with lastQuestion := some question, customQueue := queue }
  let msgs := [Msg.question state1.turn question state1.style questionSource preface]
  let msgs :=
    if questionSource = "follow_up" then
      msgs ++ [Msg.interviewerMessage state1.turn state1.style question]
    else msgs
  (state1, msgs)

/-- Embeds send_reaction from src/backend/app/main.py; the coaching call
result comes from the environment. -/
def send_reaction (env : Env) (state : SessionState) (answer : String)
    (m : Metrics) : String × List Tip :=
  let nonAnswer := is_non_answer answer
  let llmPair : Option String × List Tip :=
    match env.llmCoaching with
    | some (f, t) => (f, t)
    | none => (none, [])
  let fu1 : Option String :=
    if nonAnswer then
      some (pick_follow_up state.style answer m.speakingRate state.pack env.followChoice)
    else llmPair.1
  let followUp : String :=
    match fu1 with
    | some f =>
      if f = "" then
        pick_follow_up state.style answer m.speakingRate state.pack env.followChoice
      else f
    | none => pick_follow_up state.style answer m.speakingRate state.pack env.followChoice
  let tips :=
    if llmPair.2.isEmpty then generate_coaching state.style answer m else llmPair.2
  (followUp, tips)

/-- Embeds the start_session branch of handle_message (the session/telemetry
records are outside the model). -/
def handle_start (env : Env) (state : SessionState)
    (style group pack difficulty : Option String) (maxQ dur : PyInt)
    (custom : Option (List PyItem)) (consent : Bool) : SessionState × List Msg :=
  let newGroup := match group with
    | some g => if g ≠ "" then g else state.group
    | none => state.group
  let mq := coerce_bounded_int maxQ 1 50
  let ds := coerce_bounded_int dur 30 10800
  let startedAt := env.now
  let endsAt : Option ℚ := match ds with
    | some d => some (startedAt + (d : ℚ))
    | none => none
  let cqs := sanitize_custom_questions custom
  let newPack := match pack with
    | some p => if packExists p then p else state.pack
    | none => state.pack
  let newDiff := match difficulty with
    | some d => if d = "standard" ∨ d = "hard" then d else state.difficulty
    | none => state.difficulty
  let newStyle := match style with
    | some s =>
      match styleOfString s with
      | some st => st
      | none => state.style
    | none => state.style
  let s1 : SessionState :=
    { style := newStyle, group := newGroup, consented := consent,
      pack := newPack, difficulty := newDiff,
      turn := 0, lastQuestion := none, history := [], awaitingFollowup := false,
      maxQuestions := mq, durationSeconds := ds,
      sessionStartedAt := some startedAt, sessionEndsAt := endsAt,
      customQuestions := cqs, customQueue := cqs, ended := false }
  let startedMsg := Msg.sessionStarted 0 s1.style s1.pack s1.difficulty mq ds cqs.length
  let next := send_question env s1 none none
  (next.1, startedMsg :: next.2)

/-- Embeds the switch_style branch of handle_message. -/
def handle_switch_style (env : Env) (state : SessionState) (style : Option String) :
    SessionState × List Msg :=
  match style with
  | none => (state, [])
  | some s =>
    if s = "" then (state, [])
    else
      match styleOfString s with
      | none => (state, [])
      | some st =>
        let s1 := { state with style := st }
        let ack := [Msg.styleSwitched st]
        let budgetHit := match s1.maxQuestions with
          | some q => decide ((s1.turn : Int) ≥ q)
          | none => false
        if budgetHit then
          let next := end_session s1 "max_questions"
          (next.1, ack ++ next.2)
        else
          let timeHit := match s1.sessionEndsAt with
            | some t => decide (env.now ≥ t)
            | none => false
          if timeHit then
            let next := end_session s1 "time_limit"
            (next.1, ack ++ next.2)
          else
            let next := send_question env s1 none none
            (next.1, ack ++ next.2)

/-- Embeds the user_clarification branch of handle_message (the telemetry
write is outside the model). -/
def handle_user_clarification (env : Env) (state : SessionState) (text : String) :
    SessionState × List Msg :=
  let clar := (pyStrip text.toList).asString
  if clar = "" then (state, [Msg.error "Clarification question is empty."])
  else
    let pq := (pyStrip (state.lastQuestion.getD "").toList).asString
    if pq = "" then
      (state, [Msg.error "No active prompt yet. Start a session first."])
    else
      let pq := (pq.toList.take 800).asString
      let clar := (clar.toList.take 600).asString
      let picked : String × String :=
        if is_answer_seeking_clarification clar then
          ("guardrail", refusal_clarification_response state.style pq)
        else
          match env.llmClarification with
          | some r =>
            if r ≠ "" then ("llm", r)
            else
              ("fallback",
               fallback_clarification_response state.style pq clar state.pack
                 state.difficulty)
          | none =>
            ("fallback",
             fallback_clarification_response state.style pq clar state.pack
               state.difficulty)
      (state,
       [Msg.clarification state.turn ((picked.2.toList.take 1400).asString) picked.1])

/-- Embeds the user_answer branch of handle_message (the answer record and
tips telemetry are outside the model). -/
def handle_user_answer (env : Env) (state : SessionState) (answer : String)
    (m : Metrics) : SessionState × List Msg :=
  let asked := askedQuestion state
  let s1 := { state with turn := state.turn + 1 }
  let turnLabel := s1.turn
  let s2 := { s1 with history := lastN 4 (s1.history ++ [(asked, answer)]) }
  let reaction := send_reaction env s2 answer m
  let followUp := reaction.1
  let tips := reaction.2
  let tipMsgs := if tips.isEmpty then [] else [Msg.tips turnLabel tips]
  let budgetHit := match s2.maxQuestions with
    | some q => decide ((s2.turn : Int) ≥ q)
    | none => false
  if budgetHit then
    let next := end_session s2 "max_questions"
    (next.1, tipMsgs ++ next.2)
  else
    let timeHit := match s2.sessionEndsAt with
      | some t => decide (env.now ≥ t)
      | none => false
    if timeHit then
      let next := end_session s2 "time_limit"
      (next.1, tipMsgs ++ next.2)
    else
      if s2.awaitingFollowup then
        let s3 := { s2 with awaitingFollowup := false }
        let next := send_question env s3 none none
        (next.1, tipMsgs ++ next.2)
      else
        if followUp ≠ "" then
          let s3 := { s2 with awaitingFollowup := true }
          let next := send_question env s3 (some followUp) (some "follow_up")
          (next.1, tipMsgs ++ next.2)
        else
          let next := send_question env s2 none none
          (next.1, tipMsgs ++ next.2)

/-- Embeds handle_message from src/backend/app/main.py: one inbound event is
dispatched to its branch; persistence writes are outside the model and the
environment supplies generation results, random draws and the clock. -/
def handle_message (env : Env) (state : SessionState) (ev : Event) :
    SessionState × List Msg :=
  match ev with
  | .nonStringType => (state, [Msg.error "Message type must be a string."])
  | .startSession style group pack difficulty mq dur custom consent =>
    handle_start env state style group pack difficulty mq dur custom consent
  | .switchStyle style => handle_switch_style env state style
  | .userClarification text => handle_user_clarification env state text
  | .userAnswer answer m => handle_user_answer env state answer m
  | .ping => (state, [Msg.pong])
  | .checkin => (state, [Msg.checkinLogged])
  | .telemetryEvent => (state, [])
  | .unknown t => (state, [Msg.error ("Unrecognized message type: " ++ t)])

/-- Embeds the receive loop of interview_socket: events are processed in
order; the pre-receive time-budget check uses the arriving event's clock, and
the loop stops once the session has ended. -/
def runEvents : SessionState → List (Event × Env) → SessionState × List Msg
  | s, [] => (s, [])
  | s, (ev, env) :: rest =>
    let timedOut := match s.sessionEndsAt with
      | some t => decide (t - env.now ≤ 0)
      | none => false
    if timedOut then end_session s "time_limit"
    else
      let step := handle_message env s ev
      if step.1.ended then step
      else
        let next := runEvents step.1 rest
        (next.1, step.2 ++ next.2)

/-- Empty strip of an all-whitespace character list. -/
theorem pyStrip_eq_nil_of_all_space (l : List Char) (h : l.all pyIsSpace = true) :
    pyStrip l = [] := by
  unfold pyStrip
  have h1 : l.dropWhile pyIsSpace = [] :=
    List.dropWhile_eq_nil_iff.mpr fun x hx => (List.all_eq_true.mp h) x hx
  rw [h1]
  rfl

/-- The normalised answer of a text whose strip-lowered form is empty. -/
theorem normalizedOf_eq_nil (s : String) (h : lowerOf s = []) :
    normalizedOf s = [] := by
  unfold normalizedOf
  rw [h]
  rfl

/-- A uniform draw from a nonempty list of nonempty strings is nonempty. -/
theorem pyChoice_ne_empty (l : List String) (k : Nat) (h : l ≠ [])
    (h2 : ∀ x ∈ l, x ≠ "") : pyChoice l k ≠ "" := by
  have hlen : 0 < l.length := List.length_pos.mpr h
  have hk : k % l.length < l.length := Nat.mod_lt _ hlen
  unfold pyChoice
  rw [List.getD_eq_getElem l "" hk]
  exact h2 _ (List.getElem_mem hk)

/-- Canonical refusal phrases are short: fewer than 9 words each. -/
theorem refusalExact_short : ∀ p ∈ refusalExact, (wordTokens p.toList).length < 9 := by
  decide

/-- Canonical refusal phrases stay under the 24-word bound. -/
theorem refusalExact_le24 : ∀ p ∈ refusalExact, (wordTokens p.toList).length ≤ 24 := by
  decide

/-- No hedge pattern matches the empty normalised answer. -/
theorem hedge_empty_false :
    hedgePhrases.any (fun p => containsWordPhrase p.toList []) = false := by
  decide

/-- C4: non-answer detection follows the spec's decision procedure — an empty
or whitespace-only answer, and an answer whose normalised text is a canonical
refusal phrase, are non-answers; an answer matching a hedge pattern that also
carries a recovery phrase and at least 9 words is not a non-answer; a hedged
answer without a recovery phrase is a non-answer only when it is short (at
most 24 words or at most 140 characters). -/
theorem C4_non_answer_decision (s : String) :
    (s.toList.all pyIsSpace = true → is_non_answer s = true) ∧
    (refusalExact.any (fun p => normalizedOf s == p.toList) = true →
      is_non_answer s = true) ∧
    (hedgePhrases.any (fun p => containsWordPhrase p.toList (normalizedOf s)) = true →
      recoveryPhrases.any (fun p => containsSub p.toList (normalizedOf s)) = true →
      9 ≤ (wordTokens (normalizedOf s)).length →
      is_non_answer s = false) ∧
    (hedgePhrases.any (fun p => containsWordPhrase p.toList (normalizedOf s)) = true →
      recoveryPhrases.any (fun p => containsSub p.toList (normalizedOf s)) = false →
      is_non_answer s = true →
      ((wordTokens (normalizedOf s)).length ≤ 24 ∨ (normalizedOf s).length ≤ 140)) := by
  refine ⟨?_, ?_, ?_, ?_⟩
  · intro h
    have h1 : lowerOf s = [] := by
      unfold lowerOf
      rw [pyStrip_eq_nil_of_all_space _ h]
      rfl
    simp only [is_non_answer, h1, List.isEmpty_nil, if_true]
  · intro h
    by_cases hl : (lowerOf s).isEmpty = true
    · simp only [is_non_answer]
      rw [if_pos hl]
    · simp only [is_non_answer]
      rw [if_neg hl, if_pos h]
  · intro hhedge hrec hwc
    have hne : (lowerOf s).isEmpty = false := by
      by_contra hx
      have hx' : (lowerOf s).isEmpty = true := by
        revert hx
        cases (lowerOf s).isEmpty <;> simp
      have h0 : normalizedOf s = [] := normalizedOf_eq_nil s (List.isEmpty_iff.mp hx')
      rw [h0] at hhedge
      rw [hedge_empty_false] at hhedge
      exact Bool.false_ne_true hhedge
    have hexact : refusalExact.any (fun p => normalizedOf s == p.toList) = false := by
      by_contra hx
      have hx' : refusalExact.any (fun p => normalizedOf s == p.toList) = true := by
        revert hx
        cases refusalExact.any (fun p => normalizedOf s == p.toList) <;> simp
      obtain ⟨p, hp, he⟩ := List.any_eq_true.mp hx'
      have heq : normalizedOf s = p.toList := eq_of_beq he
      rw [heq] at hwc
      have := refusalExact_short p hp
      omega
    simp only [is_non_answer, hne, hexact, hhedge]
    rw [if_neg (by simp), if_neg Bool.false_ne_true, if_neg (by simp),
      if_pos ⟨hrec, hwc⟩]
  · intro hhedge hrec hresult
    by_cases hl : (lowerOf s).isEmpty = true
    · exfalso
      have h0 : normalizedOf s = [] := normalizedOf_eq_nil s (List.isEmpty_iff.mp hl)
      rw [h0] at hhedge
      rw [hedge_empty_false] at hhedge
      exact Bool.false_ne_true hhedge
    · have hl' : (lowerOf s).isEmpty = false := by
        revert hl
        cases (lowerOf s).isEmpty <;> simp
      by_cases hex : refusalExact.any (fun p => normalizedOf s == p.toList) = true
      · obtain ⟨p, hp, he⟩ := List.any_eq_true.mp hex
        have heq : normalizedOf s = p.toList := eq_of_beq he
        left
        rw [heq]
        exact refusalExact_le24 p hp
      · have hex' : refusalExact.any (fun p => normalizedOf s == p.toList) = false := by
          revert hex
          cases refusalExact.any (fun p => normalizedOf s == p.toList) <;> simp
        simp only [is_non_answer, hl', hex', hhedge] at hresult
        rw [if_neg (by simp), if_neg Bool.false_ne_true, if_neg (by simp),
          if_neg (by rw [hrec]; simp)] at hresult
        exact of_decide_eq_true hresult

/-- Witness for C4 at concrete answers: a whitespace-only answer and the
refusal "idk" are non-answers; a long hedged answer with a recovery phrase is
not; the hedged refusal "not sure" satisfies the shortness bound. -/
theorem C4_non_answer_decision_witness :
    is_non_answer "   " = true ∧
    is_non_answer "idk" = true ∧
    is_non_answer "I don't know, but I'd start by checking the logs and then roll back the last deploy" = false ∧
    ((wordTokens (normalizedOf "not sure")).length ≤ 24 ∨
      (normalizedOf "not sure").length ≤ 140) :=
  ⟨(C4_non_answer_decision "   ").1 (by decide),
   (C4_non_answer_decision "idk").2.1 (by decide),
   (C4_non_answer_decision "I don't know, but I'd start by checking the logs and then roll back the last deploy").2.2.1
     (by decide) (by decide) (by decide),
   (C4_non_answer_decision "not sure").2.2.2 (by decide) (by decide) (by decide)⟩

/-- The Python strip() is idempotent. -/
theorem pyStrip_idem (l : List Char) : pyStrip (pyStrip l) = pyStrip l := by
  have hps : ∀ m : List Char,
      pyStrip m = (m.dropWhile pyIsSpace).rdropWhile pyIsSpace := by
    intro m
    simp only [pyStrip, List.rdropWhile]
  have h1 : (pyStrip l).dropWhile pyIsSpace = pyStrip l := by
    cases h : pyStrip l with
    | nil => rfl
    | cons x xs =>
      have hpre : pyStrip l <+: l.dropWhile pyIsSpace := by
        rw [hps l]
        exact List.rdropWhile_prefix _ _
      rw [h] at hpre
      obtain ⟨t, ht⟩ := hpre
      have hx : pyIsSpace x = false := by
        have h9 := List.head?_dropWhile_not pyIsSpace l
        rw [← ht] at h9
        simpa using h9
      rw [List.dropWhile_cons, hx]
      simp
  rw [hps (pyStrip l), h1, hps l, List.rdropWhile_idempotent, ← hps l]

/-- Stripping first does not change the strip-lowered form. -/
theorem lowerOf_strip (s : String) :
    lowerOf (pyStrip s.toList).asString = lowerOf s := by
  unfold lowerOf
  rw [List.toList_asString, pyStrip_idem]

/-- The non-answer detector only depends on the strip-lowered form. -/
theorem is_non_answer_congr (a b : String) (h : lowerOf a = lowerOf b) :
    is_non_answer a = is_non_answer b := by
  unfold is_non_answer normalizedOf
  rw [h]

/-- The detector applied to the pre-stripped answer, as pick_follow_up does,
agrees with the detector on the raw answer. -/
theorem is_non_answer_strip (s : String) :
    is_non_answer (pyStrip s.toList).asString = is_non_answer s :=
  is_non_answer_congr _ _ (lowerOf_strip s)

/-- The truthy rate test holds exactly when a rate above the bound is given. -/
theorem srAbove_true_iff (sr : Option ℚ) (b : ℚ) :
    srAbove sr b = true ↔ ∃ r, sr = some r ∧ b < r := by
  cases sr <;> simp [srAbove]

/-- The truthy rate test fails when every given rate is at most the bound. -/
theorem srAbove_false (sr : Option ℚ) (b : ℚ) (h : ∀ r, sr = some r → r ≤ b) :
    srAbove sr b = false := by
  cases sr with
  | none => rfl
  | some r =>
    simp only [srAbove, decide_eq_false_iff_not, not_lt]
    exact h r rfl

/-- C5: for an answer that is not a non-answer, the follow-up intent is a
strict first-match precedence chain — length over 900 characters or a speaking
rate over 190 gives summarize regardless of other signals; otherwise length
under 160 gives clarify even with digits present; otherwise no digits and no
metric keyword gives numbers; otherwise a "we" count exceeding the "I" count
by more than 2 gives role; otherwise a tradeoff keyword gives tradeoff;
otherwise impact — and pick_follow_up draws its phrase from the bank of the
resolved intent. -/
theorem C5_intent_chain (answer : String) (sr : Option ℚ)
    (style : InterviewerStyle) (pack : String) (k : Nat) :
    (900 < (pyStrip answer.toList).length ∨ (∃ r, sr = some r ∧ 190 < r) →
      followUpIntent answer sr = "summarize") ∧
    ((pyStrip answer.toList).length ≤ 900 → (∀ r, sr = some r → r ≤ 190) →
      (pyStrip answer.toList).length < 160 →
      followUpIntent answer sr = "clarify") ∧
    ((pyStrip answer.toList).length ≤ 900 → (∀ r, sr = some r → r ≤ 190) →
      160 ≤ (pyStrip answer.toList).length →
      (pyStrip answer.toList).any Char.isDigit = false →
      metricWords.any
        (fun w => containsSub w.toList (lowerStr (pyStrip answer.toList))) = false →
      followUpIntent answer sr = "numbers") ∧
    ((pyStrip answer.toList).length ≤ 900 → (∀ r, sr = some r → r ≤ 190) →
      160 ≤ (pyStrip answer.toList).length →
      ((pyStrip answer.toList).any Char.isDigit = true ∨
        metricWords.any
          (fun w => containsSub w.toList (lowerStr (pyStrip answer.toList))) = true) →
      ((wordTokens (lowerStr (pyStrip answer.toList))).filter
          (· == "i".toList)).length + 2 <
        ((wordTokens (lowerStr (pyStrip answer.toList))).filter
          (· == "we".toList)).length →
      followUpIntent answer sr = "role") ∧
    ((pyStrip answer.toList).length ≤ 900 → (∀ r, sr = some r → r ≤ 190) →
      160 ≤ (pyStrip answer.toList).length →
      ((pyStrip answer.toList).any Char.isDigit = true ∨
        metricWords.any
          (fun w => containsSub w.toList (lowerStr (pyStrip answer.toList))) = true) →
      ((wordTokens (lowerStr (pyStrip answer.toList))).filter
          (· == "we".toList)).length ≤
        ((wordTokens (lowerStr (pyStrip answer.toList))).filter
          (· == "i".toList)).length + 2 →
      tradeoffWords.any
        (fun w => containsSub w.toList (lowerStr (pyStrip answer.toList))) = true →
      followUpIntent answer sr = "tradeoff") ∧
    ((pyStrip answer.toList).length ≤ 900 → (∀ r, sr = some r → r ≤ 190) →
      160 ≤ (pyStrip answer.toList).length →
      ((pyStrip answer.toList).any Char.isDigit = true ∨
        metricWords.any
          (fun w => containsSub w.toList (lowerStr (pyStrip answer.toList))) = true) →
      ((wordTokens (lowerStr (pyStrip answer.toList))).filter
          (· == "we".toList)).length ≤
        ((wordTokens (lowerStr (pyStrip answer.toList))).filter
          (· == "i".toList)).length + 2 →
      tradeoffWords.any
        (fun w => containsSub w.toList (lowerStr (pyStrip answer.toList))) = false →
      followUpIntent answer sr = "impact") ∧
    (is_non_answer answer = false →
      ∃ opts, intentBank (followUpIntent answer sr) style = some opts ∧
        pick_follow_up style answer sr pack k = pyChoice opts k) := by
  have hsum : ∀ (h : 900 < (pyStrip answer.toList).length ∨
      (∃ r, sr = some r ∧ 190 < r)), followUpIntent answer sr = "summarize" := by
    intro h
    have hc : 900 < (pyStrip answer.toList).length ∨ srAbove sr 190 = true := by
      rcases h with h | h
      · exact Or.inl h
      · exact Or.inr ((srAbove_true_iff sr 190).mpr h)
    simp only [followUpIntent]
    rw [if_pos hc]
  have hneg : ∀ (_ : (pyStrip answer.toList).length ≤ 900)
      (_ : ∀ r, sr = some r → r ≤ 190),
      ¬(900 < (pyStrip answer.toList).length ∨ srAbove sr 190 = true) := by
    intro h1 h2 hc
    rcases hc with hc | hc
    · omega
    · rw [srAbove_false sr 190 h2] at hc
      exact Bool.false_ne_true hc
  refine ⟨hsum, ?_, ?_, ?_, ?_, ?_, ?_⟩
  · intro h1 h2 h3
    simp only [followUpIntent]
    rw [if_neg (hneg h1 h2), if_pos h3]
  · intro h1 h2 h3 h4 h5
    simp only [followUpIntent]
    rw [if_neg (hneg h1 h2), if_neg (by omega), if_pos (by rw [h4, h5]; rfl)]
  · intro h1 h2 h3 h4 h5
    simp only [followUpIntent]
    rw [if_neg (hneg h1 h2), if_neg (by omega),
      if_neg (by rcases h4 with h4 | h4 <;> rw [h4] <;> simp), if_pos h5]
  · intro h1 h2 h3 h4 h5 h6
    simp only [followUpIntent]
    rw [if_neg (hneg h1 h2), if_neg (by omega),
      if_neg (by rcases h4 with h4 | h4 <;> rw [h4] <;> simp), if_neg (by omega),
      if_pos h6]
  · intro h1 h2 h3 h4 h5 h6
    simp only [followUpIntent]
    rw [if_neg (hneg h1 h2), if_neg (by omega),
      if_neg (by rcases h4 with h4 | h4 <;> rw [h4] <;> simp), if_neg (by omega),
      if_neg (by rw [h6]; exact Bool.false_ne_true)]
  · intro hna
    have hna' : is_non_answer (pyStrip answer.toList).asString = false := by
      rw [is_non_answer_strip]
      exact hna
    simp only [pick_follow_up]
    rw [if_neg (by rw [hna']; exact Bool.false_ne_true)]
    have hmem : followUpIntent answer sr = "summarize" ∨
        followUpIntent answer sr = "clarify" ∨
        followUpIntent answer sr = "numbers" ∨
        followUpIntent answer sr = "role" ∨
        followUpIntent answer sr = "tradeoff" ∨
        followUpIntent answer sr = "impact" := by
      simp only [followUpIntent]
      split
      · exact Or.inl rfl
      · split
        · exact Or.inr (Or.inl rfl)
        · split
          · exact Or.inr (Or.inr (Or.inl rfl))
          · split
            · exact Or.inr (Or.inr (Or.inr (Or.inl rfl)))
            · split
              · exact Or.inr (Or.inr (Or.inr (Or.inr (Or.inl rfl))))
              · exact Or.inr (Or.inr (Or.inr (Or.inr (Or.inr rfl))))
    rcases hmem with h | h | h | h | h | h <;>
      rw [h] <;> cases style <;>
      refine ⟨_, rfl, ?_⟩ <;> simp [intentBank]

/-- Witness for C5 at concrete inputs: a high speaking rate forces summarize;
a short answer resolves to clarify; and pick_follow_up draws from the clarify
bank for a short substantive answer. -/
theorem C5_intent_chain_witness :
    followUpIntent "a" (some 200) = "summarize" ∧
    followUpIntent "It worked." none = "clarify" ∧
    (∃ opts, intentBank (followUpIntent "It worked." none) .neutral = some opts ∧
      pick_follow_up .neutral "It worked." none "swe_behavioral" 0 = pyChoice opts 0) :=
  ⟨(C5_intent_chain "a" (some 200) .neutral "swe_behavioral" 0).1
     (Or.inr ⟨200, rfl, by norm_num⟩),
   (C5_intent_chain "It worked." none .neutral "swe_behavioral" 0).2.1
     (by decide) (by intro r h; cases h) (by decide),
   (C5_intent_chain "It worked." none .neutral "swe_behavioral" 0).2.2.2.2.2.2
     (by decide)⟩

/-- Counterexample for C8: the input "true" contains no braces, yet extraction
does not return None — the direct JSON parse succeeds and the parsed scalar is
returned, so "an input containing no braces returns None" fails as stated. -/
theorem C8_scalar_counterexample :
    ("true".toList.contains '\x7b') = false ∧
    extract_json_block "true" = some (JVal.bool true) ∧
    extract_json_block "true" ≠ none :=
  ⟨rfl, rfl,
   by rw [show extract_json_block "true" = some (JVal.bool true) from rfl]; simp⟩

/-- C8 amended: the example body extracts its embedded object, and an input
that fails the direct JSON parse and contains no opening brace returns None
(an input with no braces that itself parses as JSON returns the parsed
value). -/
theorem C8_tolerant_extraction :
    extract_json_block "Sure! \x7b\"question\": \"Tell me about X\"\x7d thanks" =
      some (JVal.obj [("question", JVal.str "Tell me about X")]) ∧
    (∀ s : String, jsonLoads s = none → s.toList.contains '\x7b' = false →
      extract_json_block s = none) := by
  constructor
  · rfl
  · intro s h1 h2
    have h3 : '\x7b' ∉ s.toList := by simpa using h2
    have hd : s.data.dropWhile (fun x => !decide (x = '\x7b')) = [] := by
      rw [List.dropWhile_eq_nil_iff]
      intro x hx
      simp only [Bool.not_eq_true']
      exact decide_eq_false fun he => h3 (he ▸ hx)
    simp [extract_json_block, h1, braceSpan, hd]

/-- Witness for C8: a plain sentence with no braces fails the direct parse and
extraction returns None. -/
theorem C8_tolerant_extraction_witness :
    extract_json_block "no braces at all" = none :=
  C8_tolerant_extraction.2 "no braces at all" rfl rfl

/-- Sending a question changes only last_question and the custom queue. -/
theorem send_question_state (env : Env) (s : SessionState) (o src : Option String) :
    ∃ q queue, (send_question env s o src).1 =
      { s with lastQuestion := some q, customQueue := queue } := by
  exact ⟨_, _, rfl⟩

/-- The turn counter is preserved by send_question. -/
theorem send_question_turn (env : Env) (s : SessionState) (o src : Option String) :
    (send_question env s o src).1.turn = s.turn := by
  obtain ⟨q, queue, h⟩ := send_question_state env s o src
  rw [h]

/-- The ended flag is preserved by send_question. -/
theorem send_question_ended (env : Env) (s : SessionState) (o src : Option String) :
    (send_question env s o src).1.ended = s.ended := by
  obtain ⟨q, queue, h⟩ := send_question_state env s o src
  rw [h]

/-- The history is preserved by send_question. -/
theorem send_question_history (env : Env) (s : SessionState) (o src : Option String) :
    (send_question env s o src).1.history = s.history := by
  obtain ⟨q, queue, h⟩ := send_question_state env s o src
  rw [h]

/-- The awaiting-follow-up flag is preserved by send_question. -/
theorem send_question_awaiting (env : Env) (s : SessionState) (o src : Option String) :
    (send_question env s o src).1.awaitingFollowup = s.awaitingFollowup := by
  obtain ⟨q, queue, h⟩ := send_question_state env s o src
  rw [h]

/-- The question budget is preserved by send_question. -/
theorem send_question_maxQuestions (env : Env) (s : SessionState)
    (o src : Option String) :
    (send_question env s o src).1.maxQuestions = s.maxQuestions := by
  obtain ⟨q, queue, h⟩ := send_question_state env s o src
  rw [h]

/-- The duration bound is preserved by send_question. -/
theorem send_question_durationSeconds (env : Env) (s : SessionState)
    (o src : Option String) :
    (send_question env s o src).1.durationSeconds = s.durationSeconds := by
  obtain ⟨q, queue, h⟩ := send_question_state env s o src
  rw [h]

/-- The end timestamp is preserved by send_question. -/
theorem send_question_sessionEndsAt (env : Env) (s : SessionState)
    (o src : Option String) :
    (send_question env s o src).1.sessionEndsAt = s.sessionEndsAt := by
  obtain ⟨q, queue, h⟩ := send_question_state env s o src
  rw [h]

/-- The sanitised custom-question list is preserved by send_question. -/
theorem send_question_customQuestions (env : Env) (s : SessionState)
    (o src : Option String) :
    (send_question env s o src).1.customQuestions = s.customQuestions := by
  obtain ⟨q, queue, h⟩ := send_question_state env s o src
  rw [h]

/-- Ending a session only sets the ended flag. -/
theorem end_session_state (s : SessionState) (r : String) :
    (end_session s r).1 = { s with ended := true } := by
  unfold end_session
  split
  · rename_i h
    cases s
    simp_all
  · rfl

/-- C10: a maxQuestions value parsable as an integer is clamped into [1, 50]
(below 1 becomes 1, above 50 becomes 50, in-range values pass through) and a
non-parsable value yields no bound; durationSeconds is likewise clamped into
[30, 10800]; start_session stores exactly these coercions, a non-parsable
duration leaves no end timestamp, and with no bounds set an answer never ends
the session. -/
theorem C10_bounded_config :
    (∀ n : Int, n < 1 → coerce_bounded_int (.val n) 1 50 = some 1) ∧
    (∀ n : Int, 50 < n → coerce_bounded_int (.val n) 1 50 = some 50) ∧
    (∀ n : Int, 1 ≤ n → n ≤ 50 → coerce_bounded_int (.val n) 1 50 = some n) ∧
    coerce_bounded_int .bad 1 50 = none ∧
    (∀ n : Int, n < 30 → coerce_bounded_int (.val n) 30 10800 = some 30) ∧
    (∀ n : Int, 10800 < n → coerce_bounded_int (.val n) 30 10800 = some 10800) ∧
    (∀ n : Int, 30 ≤ n → n ≤ 10800 → coerce_bounded_int (.val n) 30 10800 = some n) ∧
    coerce_bounded_int .bad 30 10800 = none ∧
    (∀ (env : Env) (s : SessionState) style group pack difficulty mq dur custom
        consent,
      (handle_message env s
        (.startSession style group pack difficulty mq dur custom consent)).1.maxQuestions =
          coerce_bounded_int mq 1 50 ∧
      (handle_message env s
        (.startSession style group pack difficulty mq dur custom consent)).1.durationSeconds =
          coerce_bounded_int dur 30 10800 ∧
      (dur = .bad →
        (handle_message env s
          (.startSession style group pack difficulty mq dur custom consent)).1.sessionEndsAt =
            none)) ∧
    (∀ (env : Env) (s : SessionState) a m, s.maxQuestions = none →
      s.sessionEndsAt = none → s.ended = false →
      (handle_message env s (.userAnswer a m)).1.ended = false) := by
  refine ⟨?_, ?_, ?_, rfl, ?_, ?_, ?_, rfl, ?_, ?_⟩
  · intro n h
    simp only [coerce_bounded_int, Option.some.injEq]
    omega
  · intro n h
    simp only [coerce_bounded_int, Option.some.injEq]
    omega
  · intro n h1 h2
    simp only [coerce_bounded_int, Option.some.injEq]
    omega
  · intro n h
    simp only [coerce_bounded_int, Option.some.injEq]
    omega
  · intro n h
    simp only [coerce_bounded_int, Option.some.injEq]
    omega
  · intro n h1 h2
    simp only [coerce_bounded_int, Option.some.injEq]
    omega
  · intro env s style group pack difficulty mq dur custom consent
    refine ⟨?_, ?_, ?_⟩
    · simp only [handle_message, handle_start]
      rw [send_question_maxQuestions]
    · simp only [handle_message, handle_start]
      rw [send_question_durationSeconds]
    · intro hdur
      simp only [handle_message, handle_start, hdur]
      rw [send_question_sessionEndsAt]
      rfl
  · intro env s a m hmax htime hended
    simp only [handle_message, handle_user_answer, hmax, htime]
    rw [if_neg Bool.false_ne_true, if_neg Bool.false_ne_true]
    split
    · rw [send_question_ended]
      exact hended
    · split
      · rw [send_question_ended]
        exact hended
      · rw [send_question_ended]
        exact hended

/-- Witness for C10 at concrete values: 0 clamps to 1, 99 clamps to 50, 7
passes through, a bad value gives no bound, and a fresh session with no
bounds stays alive through an answer. -/
theorem C10_bounded_config_witness :
    coerce_bounded_int (.val 0) 1 50 = some 1 ∧
    coerce_bounded_int (.val 99) 1 50 = some 50 ∧
    coerce_bounded_int (.val 7) 1 50 = some 7 ∧
    coerce_bounded_int (.val 20000) 30 10800 = some 10800 ∧
    (handle_message {} initialState (.userAnswer "hello" {})).1.ended = false :=
  ⟨C10_bounded_config.1 0 (by norm_num),
   C10_bounded_config.2.1 99 (by norm_num),
   C10_bounded_config.2.2.1 7 (by norm_num) (by norm_num),
   C10_bounded_config.2.2.2.2.2.1 20000 (by norm_num),
   C10_bounded_config.2.2.2.2.2.2.2.2.2 {} initialState "hello" {} rfl rfl rfl⟩

/-- C6: ending a session is idempotent — from a live session, the first call
emits exactly one terminal session_ended message and exactly one close, and a
second call emits nothing and leaves the state unchanged. -/
theorem C6_end_session_idempotent (s : SessionState) (r1 r2 : String)
    (h : s.ended = false) :
    (end_session s r1).2.countP Msg.isSessionEndedMsg = 1 ∧
    (end_session s r1).2.countP Msg.isCloseMsg = 1 ∧
    (end_session (end_session s r1).1 r2).2 = [] ∧
    (end_session (end_session s r1).1 r2).1 = (end_session s r1).1 ∧
    (end_session s r1).1.ended = true := by
  have h1 : end_session s r1 = ({ s with ended := true },
      [Msg.sessionEnded s.turn r1 (session_end_message s.style r1), Msg.close]) := by
    unfold end_session
    rw [if_neg (by rw [h]; exact Bool.false_ne_true)]
  have h2 : end_session { s with ended := true } r2 =
      ({ s with ended := true }, []) := by
    unfold end_session
    rw [if_pos rfl]
  rw [h1]
  refine ⟨rfl, rfl, ?_, ?_, rfl⟩
  · show (end_session { s with ended := true } r2).2 = []
    rw [h2]
  · show (end_session { s with ended := true } r2).1 = { s with ended := true }
    rw [h2]

/-- Witness for C6 on the initial state with the manual reason. -/
theorem C6_end_session_idempotent_witness :
    (end_session initialState "manual").2.countP Msg.isSessionEndedMsg = 1 ∧
    (end_session initialState "manual").2.countP Msg.isCloseMsg = 1 ∧
    (end_session (end_session initialState "manual").1 "manual").2 = [] ∧
    (end_session (end_session initialState "manual").1 "manual").1 =
      (end_session initialState "manual").1 ∧
    (end_session initialState "manual").1.ended = true :=
  C6_end_session_idempotent initialState "manual" "manual" rfl

/-- C1 counterexample: after a start and one primary answer the session is
awaiting a follow-up answer with turn = 1, and the next answer — an answer to
the follow-up — raises the turn counter to 2, so a follow-up answer does
increment the counter, contrary to the claim. -/
theorem C1_follow_up_increments_counterexample :
    (handle_message {} (handle_message {} initialState
        (.startSession none none none none .bad .bad none false)).1
      (.userAnswer "idk" {})).1.turn = 1 ∧
    (handle_message {} (handle_message {} initialState
        (.startSession none none none none .bad .bad none false)).1
      (.userAnswer "idk" {})).1.awaitingFollowup = true ∧
    (handle_message {} (handle_message {} (handle_message {} initialState
          (.startSession none none none none .bad .bad none false)).1
        (.userAnswer "idk" {})).1
      (.userAnswer "ok" {})).1.turn = 2 := by
  refine ⟨?_, ?_, ?_⟩ <;> decide

/-- Answer processing increments the turn counter by exactly one. -/
theorem handle_user_answer_turn (env : Env) (s : SessionState) (answer : String)
    (m : Metrics) : (handle_user_answer env s answer m).1.turn = s.turn + 1 := by
  simp only [handle_user_answer]
  split
  · rw [end_session_state]
  · split
    · rw [end_session_state]
    · split
      · rw [send_question_turn]
      · split
        · rw [send_question_turn]
        · rw [send_question_turn]

/-- A style switch leaves the turn counter unchanged. -/
theorem handle_switch_style_turn (env : Env) (s : SessionState)
    (style : Option String) : (handle_switch_style env s style).1.turn = s.turn := by
  cases style with
  | none => rfl
  | some v =>
    simp only [handle_switch_style]
    by_cases hv : v = ""
    · rw [if_pos hv]
    · rw [if_neg hv]
      split
      · rfl
      · split
        · rw [end_session_state]
        · split
          · rw [end_session_state]
          · rw [send_question_turn]

/-- A clarification request leaves the turn counter unchanged. -/
theorem handle_user_clarification_turn (env : Env) (s : SessionState)
    (text : String) : (handle_user_clarification env s text).1.turn = s.turn := by
  simp only [handle_user_clarification]
  split
  · rfl
  · split
    · rfl
    · rfl

/-- C1 amended: across every non-start event the turn counter never decreases
and changes by exactly one on a user answer — whether the answer is primary or
answers a follow-up — and is unchanged on every other event. -/
theorem C1_turn_delta (env : Env) (s : SessionState) (ev : Event)
    (h : ev.isStart = false) :
    (handle_message env s ev).1.turn =
      s.turn + (if ev.isAnswer = true then 1 else 0) := by
  cases ev with
  | startSession style group pack difficulty mq dur custom consent =>
    simp [Event.isStart] at h
  | switchStyle style =>
    simp only [handle_message, Event.isAnswer, Bool.false_eq_true, if_false,
      add_zero]
    exact handle_switch_style_turn env s style
  | userClarification text =>
    simp only [handle_message, Event.isAnswer, Bool.false_eq_true, if_false,
      add_zero]
    exact handle_user_clarification_turn env s text
  | userAnswer answer m =>
    simp only [handle_message, Event.isAnswer, if_true]
    exact handle_user_answer_turn env s answer m
  | ping => rfl
  | checkin => rfl
  | telemetryEvent => rfl
  | unknown t => rfl
  | nonStringType => rfl

/-- Witness for C1 at a concrete non-start event: a ping leaves the turn
counter unchanged. -/
theorem C1_turn_delta_witness :
    Event.isStart .ping = false ∧
    (handle_message {} initialState .ping).1.turn =
      initialState.turn + (if Event.isAnswer .ping = true then 1 else 0) :=
  ⟨rfl, C1_turn_delta {} initialState .ping rfl⟩

/-- Priority insertion never yields the empty list. -/
theorem insertDescPrio_ne_nil (x : Int × Tip) (l : List (Int × Tip)) :
    insertDescPrio x l ≠ [] := by
  cases l with
  | nil => simp [insertDescPrio]
  | cons y ys =>
    simp only [insertDescPrio]
    split <;> simp

/-- Sorting a nonempty candidate list keeps it nonempty. -/
theorem sortDescPrio_ne_nil (l : List (Int × Tip)) (h : l ≠ []) :
    sortDescPrio l ≠ [] := by
  cases l with
  | nil => exact absurd rfl h
  | cons x xs =>
    simp only [sortDescPrio]
    exact insertDescPrio_ne_nil x (sortDescPrio xs)

/-- The sort/dedup/cap/tone pipeline keeps a nonempty candidate list
nonempty. -/
theorem tips_pipeline_ne_nil (l : List (Int × Tip)) (f : Tip → Tip)
    (h : l ≠ []) : (takeTips (sortDescPrio l) [] 2).map f ≠ [] := by
  have h1 : sortDescPrio l ≠ [] := sortDescPrio_ne_nil l h
  cases hs : sortDescPrio l with
  | nil => exact absurd hs h1
  | cons x xs =>
    obtain ⟨p, t⟩ := x
    simp [takeTips]

/-- The fallback branch guarantees a nonempty candidate list. -/
theorem candidates_branch_ne_nil (cs : List (Int × Tip)) (kb : Int × Tip) :
    (if cs.isEmpty = true then [kb] else cs) ≠ [] := by
  by_cases h : cs.isEmpty = true
  · rw [if_pos h]
    simp
  · rw [if_neg h]
    intro he
    rw [he] at h
    exact h rfl

/-- Coaching always produces at least one tip. -/
theorem generate_coaching_ne_nil (style : InterviewerStyle) (answer : String)
    (m : Metrics) : generate_coaching style answer m ≠ [] := by
  simp only [generate_coaching]
  split
  · simp
  · exact tips_pipeline_ne_nil _ _ (candidates_branch_ne_nil _ _)

/-- The reaction to an answer always carries at least one tip. -/
theorem send_reaction_tips_ne_nil (env : Env) (s : SessionState) (a : String)
    (m : Metrics) : (send_reaction env s a m).2 ≠ [] := by
  simp only [send_reaction]
  split
  · exact generate_coaching_ne_nil _ _ _
  · rename_i hemp
    intro he
    rw [he] at hemp
    exact hemp rfl

/-- Processing an answer that reaches the question budget ends the session
with reason max_questions, after the tips message and without sending any
further question. -/
theorem handle_user_answer_budget_hit (env : Env) (s : SessionState)
    (a : String) (m : Metrics) (q : Int) (hMax : s.maxQuestions = some q)
    (hq : q ≤ (s.turn : Int) + 1) (hEnded : s.ended = false) :
    handle_user_answer env s a m =
      ({ s with
          turn := s.turn + 1,
          history := lastN 4 (s.history ++ [(askedQuestion s, a)]),
          ended := true },
       [Msg.tips (s.turn + 1)
          (send_reaction env
            { s with
                turn := s.turn + 1,
                history := lastN 4 (s.history ++ [(askedQuestion s, a)]) } a m).2,
        Msg.sessionEnded (s.turn + 1) "max_questions"
          (session_end_message s.style "max_questions"),
        Msg.close]) := by
  simp only [handle_user_answer, hMax]
  rw [if_pos (decide_eq_true (by push_cast; omega))]
  rw [if_neg (by
    intro he
    rw [List.isEmpty_iff] at he
    exact send_reaction_tips_ne_nil env _ a m he)]
  simp only [end_session]
  rw [if_neg (by
    show ¬ (_ = true)
    rw [show ({ s with
        turn := s.turn + 1,
        history := lastN 4 (s.history ++ [(askedQuestion s, a)]) } :
          SessionState).ended = s.ended from rfl, hEnded]
    exact Bool.false_ne_true)]
  rfl

/-- C2 counterexample: with maxQuestions = 2, after one primary answer the
session is awaiting a follow-up answer and still live, and processing that
follow-up answer — not a second primary answer — transitions the session to
Ended with reason max_questions. -/
theorem C2_budget_counterexample :
    (handle_message {} (handle_message {} initialState
        (.startSession none none none none (.val 2) .bad none false)).1
      (.userAnswer "idk" {})).1.awaitingFollowup = true ∧
    (handle_message {} (handle_message {} initialState
        (.startSession none none none none (.val 2) .bad none false)).1
      (.userAnswer "idk" {})).1.ended = false ∧
    (handle_message {} (handle_message {} (handle_message {} initialState
          (.startSession none none none none (.val 2) .bad none false)).1
        (.userAnswer "idk" {})).1
      (.userAnswer "ok" {})).1.ended = true ∧
    (handle_message {} (handle_message {} (handle_message {} initialState
          (.startSession none none none none (.val 2) .bad none false)).1
        (.userAnswer "idk" {})).1
      (.userAnswer "ok" {})).2.any
        (fun msg => match msg with
          | Msg.sessionEnded _ r _ => r == "max_questions"
          | _ => false) = true := by
  refine ⟨?_, ?_, ?_, ?_⟩ <;> decide

/-- C2 amended: with maxQuestions = 2 the session transitions to Ended with
reason max_questions immediately after the second answer event is processed —
counting follow-up answers, so in practice after the first primary answer and
its answered follow-up — with that answer's tips message emitted before
session_ended and no question message in the terminal step; over the whole
run at most two question messages are ever issued. -/
theorem C2_budget_second_answer (env : Env) (s : SessionState) (a : String)
    (m : Metrics) (hEnded : s.ended = false) (hMax : s.maxQuestions = some 2)
    (hTurn : s.turn = 1) :
    (handle_message env s (.userAnswer a m)).1.ended = true ∧
    (handle_message env s (.userAnswer a m)).1.turn = 2 ∧
    (∃ t, t ≠ [] ∧ (handle_message env s (.userAnswer a m)).2 =
      [Msg.tips 2 t,
       Msg.sessionEnded 2 "max_questions"
         (session_end_message s.style "max_questions"),
       Msg.close]) ∧
    (handle_message env s (.userAnswer a m)).2.countP Msg.isQuestionMsg = 0 ∧
    (runEvents initialState
      [(.startSession none none none none (.val 2) .bad none false, {}),
       (.userAnswer "idk" {}, {}),
       (.userAnswer "ok" {}, {})]).2.countP Msg.isQuestionMsg = 2 := by
  have hb := handle_user_answer_budget_hit env s a m 2 hMax (by omega) hEnded
  refine ⟨?_, ?_, ?_, ?_, by decide⟩
  · simp [handle_message, hb]
  · simp [handle_message, hb, hTurn]
  · refine ⟨(send_reaction env
        { s with
            turn := s.turn + 1,
            history := lastN 4 (s.history ++ [(askedQuestion s, a)]) } a m).2,
      send_reaction_tips_ne_nil env _ a m, ?_⟩
    simp [handle_message, hb, hTurn]
  · simp [handle_message, hb, List.countP_cons, Msg.isQuestionMsg]

/-- Witness for C2 at a concrete session state in mid-run: one answer
processed, maxQuestions = 2, and the next answer ends the session. -/
theorem C2_budget_second_answer_witness :
    (handle_message {} { initialState with turn := 1, maxQuestions := some 2 }
      (.userAnswer "ok" {})).1.ended = true ∧
    (handle_message {} { initialState with turn := 1, maxQuestions := some 2 }
      (.userAnswer "ok" {})).1.turn = 2 :=
  ⟨(C2_budget_second_answer {} { initialState with turn := 1, maxQuestions := some 2 }
      "ok" {} rfl rfl rfl).1,
   (C2_budget_second_answer {} { initialState with turn := 1, maxQuestions := some 2 }
      "ok" {} rfl rfl rfl).2.1⟩

/-- With no override, send_question pops exactly the front of the custom
queue (an empty queue stays empty). -/
theorem send_question_queue_pop (env : Env) (s : SessionState) (src : Option String) :
    (send_question env s none src).1.customQueue = s.customQueue.drop 1 := by
  simp only [send_question]
  cases hq : s.customQueue with
  | nil => cases hl : env.llmQuestion <;> simp [hq, hl]
  | cons q rest => simp [hq]

/-- send_question consumes at most the front element of the custom queue and
never adds to it. -/
theorem send_question_queue_cases (env : Env) (s : SessionState)
    (o src : Option String) :
    (send_question env s o src).1.customQueue = s.customQueue ∨
    (send_question env s o src).1.customQueue = s.customQueue.drop 1 := by
  cases o with
  | none => exact Or.inr (send_question_queue_pop env s src)
  | some ov =>
    by_cases hov : ov = ""
    · subst hov
      right
      simp only [send_question]
      cases hq : s.customQueue with
      | nil => cases hl : env.llmQuestion <;> simp [hq, hl]
      | cons q rest => simp [hq]
    · left
      simp only [send_question]
      simp [hov]

/-- When the custom queue is nonempty and no override is given, the emitted
message is exactly the queue head, tagged with source custom. -/
theorem send_question_custom (env : Env) (s : SessionState) (src : Option String)
    (q : String) (qs : List String) (hq : s.customQueue = q :: qs) :
    (send_question env s none src).1.customQueue = qs ∧
    ∃ p, (send_question env s none src).2 =
      [Msg.question s.turn q s.style "custom" p] := by
  simp [send_question, hq]

/-- Pair-shaped restatement of send_question_queue_cases, matching the goal
form produced inside the answer and style handlers. -/
theorem send_question_queue_cases_fst (env : Env) (s : SessionState)
    (o src : Option String) (msgs : List Msg) :
    (((send_question env s o src).1, msgs) :
        SessionState × List Msg).1.customQueue = s.customQueue ∨
    (((send_question env s o src).1, msgs) :
        SessionState × List Msg).1.customQueue = s.customQueue.drop 1 :=
  send_question_queue_cases env s o src

/-- Answer processing consumes at most the front of the custom queue. -/
theorem handle_user_answer_queue (env : Env) (s : SessionState) (a : String)
    (m : Metrics) :
    (handle_user_answer env s a m).1.customQueue = s.customQueue ∨
    (handle_user_answer env s a m).1.customQueue = s.customQueue.drop 1 := by
  simp only [handle_user_answer]
  split
  · rw [end_session_state]
    exact Or.inl rfl
  · split
    · rw [end_session_state]
      exact Or.inl rfl
    · split
      · exact send_question_queue_cases_fst env _ none none _
      · split
        · exact send_question_queue_cases_fst env _ _ _ _
        · exact send_question_queue_cases_fst env _ none none _

/-- Answer processing leaves the sanitised custom-question list unchanged. -/
theorem handle_user_answer_customQuestions (env : Env) (s : SessionState)
    (a : String) (m : Metrics) :
    (handle_user_answer env s a m).1.customQuestions = s.customQuestions := by
  simp only [handle_user_answer]
  split
  · rw [end_session_state]
  · split
    · rw [end_session_state]
    · split
      · rw [send_question_customQuestions]
      · split
        · rw [send_question_customQuestions]
        · rw [send_question_customQuestions]

/-- A style switch consumes at most the front of the custom queue. -/
theorem handle_switch_style_queue (env : Env) (s : SessionState)
    (style : Option String) :
    (handle_switch_style env s style).1.customQueue = s.customQueue ∨
    (handle_switch_style env s style).1.customQueue = s.customQueue.drop 1 := by
  cases style with
  | none => exact Or.inl rfl
  | some v =>
    simp only [handle_switch_style]
    by_cases hv : v = ""
    · rw [if_pos hv]
      exact Or.inl rfl
    · rw [if_neg hv]
      split
      · exact Or.inl rfl
      · split
        · rw [end_session_state]
          exact Or.inl rfl
        · split
          · rw [end_session_state]
            exact Or.inl rfl
          · exact send_question_queue_cases_fst env _ none none _

/-- A style switch leaves the sanitised custom-question list unchanged. -/
theorem handle_switch_style_customQuestions (env : Env) (s : SessionState)
    (style : Option String) :
    (handle_switch_style env s style).1.customQuestions = s.customQuestions := by
  cases style with
  | none => rfl
  | some v =>
    simp only [handle_switch_style]
    by_cases hv : v = ""
    · rw [if_pos hv]
    · rw [if_neg hv]
      split
      · rfl
      · split
        · rw [end_session_state]
        · split
          · rw [end_session_state]
          · rw [send_question_customQuestions]

/-- A clarification request changes no session state at all. -/
theorem handle_user_clarification_state (env : Env) (s : SessionState)
    (text : String) : (handle_user_clarification env s text).1 = s := by
  simp only [handle_user_clarification]
  split
  · rfl
  · split
    · rfl
    · rfl

/-- C3 counterexample: starting with the custom questions "A", "B", "C" sends
"A?" — the sanitised form with the question mark appended — as the first
primary question, and no question with the verbatim text "A" is ever sent. -/
theorem C3_sanitize_counterexample :
    ((handle_message {} initialState (.startSession none none none none .bad .bad
        (some [.str "A", .str "B", .str "C"]) false)).2.filterMap
      Msg.primaryQuestionData = [("A?", "custom")]) ∧
    ((handle_message {} initialState (.startSession none none none none .bad .bad
        (some [.str "A", .str "B", .str "C"]) false)).2.any
      (fun msg => match msg with
        | Msg.question _ t _ _ _ => t == "A"
        | _ => false) = false) := by
  refine ⟨?_, ?_⟩ <;> decide

/-- C3 amended: starting a session stores the sanitised custom questions and
queues them; the queue is consumed only from the front, at most one entry per
event, and is never reordered or refilled; whenever the queue is nonempty the
next question sent is exactly its head with source custom; and in a full run
with generation available, the sanitised custom questions are sent, in order,
as the first primary questions before any llm or catalog question. -/
theorem C3_custom_queue :
    (∀ (env : Env) (s : SessionState) style group pack difficulty mq dur custom
        consent,
      (handle_message env s (.startSession style group pack difficulty mq dur
          custom consent)).1.customQuestions = sanitize_custom_questions custom ∧
      (handle_message env s (.startSession style group pack difficulty mq dur
          custom consent)).1.customQueue =
        (sanitize_custom_questions custom).drop 1) ∧
    (∀ (env : Env) (s : SessionState) ev, ev.isStart = false →
      (handle_message env s ev).1.customQuestions = s.customQuestions ∧
      ((handle_message env s ev).1.customQueue = s.customQueue ∨
       (handle_message env s ev).1.customQueue = s.customQueue.drop 1)) ∧
    (∀ (env : Env) (s : SessionState) (q : String) (qs : List String),
      s.customQueue = q :: qs →
      ∃ p, (send_question env s none none).2 =
        [Msg.question s.turn q s.style "custom" p]) ∧
    ((runEvents initialState
        [(.startSession none none none none .bad .bad
            (some [.str "Q1?", .str "Q2?", .str "Q3?"]) false,
          { llmQuestion := some "GEN?" }),
         (.userAnswer "idk" {}, { llmQuestion := some "GEN?" }),
         (.userAnswer "no clue" {}, { llmQuestion := some "GEN?" }),
         (.userAnswer "pass" {}, { llmQuestion := some "GEN?" }),
         (.userAnswer "skip" {}, { llmQuestion := some "GEN?" })]).2.filterMap
      Msg.primaryQuestionData =
        [("Q1?", "custom"), ("Q2?", "custom"), ("Q3?", "custom")]) := by
  refine ⟨?_, ?_, ?_, by decide⟩
  · intro env s style group pack difficulty mq dur custom consent
    constructor
    · simp only [handle_message, handle_start]
      rw [send_question_customQuestions]
    · simp only [handle_message, handle_start]
      rw [send_question_queue_pop]
  · intro env s ev hev
    cases ev with
    | startSession style group pack difficulty mq dur custom consent =>
      simp [Event.isStart] at hev
    | switchStyle style =>
      exact ⟨handle_switch_style_customQuestions env s style,
        handle_switch_style_queue env s style⟩
    | userClarification text =>
      rw [show (handle_message env s (.userClarification text)).1 =
        (handle_user_clarification env s text).1 from rfl,
        handle_user_clarification_state]
      exact ⟨rfl, Or.inl rfl⟩
    | userAnswer a m =>
      exact ⟨handle_user_answer_customQuestions env s a m,
        handle_user_answer_queue env s a m⟩
    | ping => exact ⟨rfl, Or.inl rfl⟩
    | checkin => exact ⟨rfl, Or.inl rfl⟩
    | telemetryEvent => exact ⟨rfl, Or.inl rfl⟩
    | unknown t => exact ⟨rfl, Or.inl rfl⟩
    | nonStringType => exact ⟨rfl, Or.inl rfl⟩
  · intro env s q qs hq
    exact (send_question_custom env s none q qs hq).2

/-- Witness for C3 at concrete inputs: a ping leaves the custom state alone,
and with "Q9?" queued the next question sent is "Q9?" with source custom. -/
theorem C3_custom_queue_witness :
    ((handle_message {} initialState .ping).1.customQuestions =
        initialState.customQuestions ∧
      ((handle_message {} initialState .ping).1.customQueue =
          initialState.customQueue ∨
        (handle_message {} initialState .ping).1.customQueue =
          initialState.customQueue.drop 1)) ∧
    (∃ p, (send_question {} { initialState with customQueue := ["Q9?"] }
        none none).2 =
      [Msg.question 0 "Q9?" InterviewerStyle.neutral "custom" p]) :=
  ⟨C3_custom_queue.2.1 {} initialState .ping rfl,
   C3_custom_queue.2.2.1 {} { initialState with customQueue := ["Q9?"] }
     "Q9?" [] rfl⟩

/-- lastN keeps at most n elements. -/
theorem lastN_length_le (n : Nat) (l : List (String × String)) :
    (lastN n l).length ≤ n := by
  simp only [lastN, List.length_drop]
  omega

/-- Answer processing appends the (asked question, answer) pair and truncates
the history to its last four entries. -/
theorem handle_user_answer_history (env : Env) (s : SessionState) (a : String)
    (m : Metrics) : (handle_user_answer env s a m).1.history =
      lastN 4 (s.history ++ [(askedQuestion s, a)]) := by
  simp only [handle_user_answer]
  split
  · rw [end_session_state]
  · split
    · rw [end_session_state]
    · split
      · rw [send_question_history]
      · split
        · rw [send_question_history]
        · rw [send_question_history]

/-- A style switch leaves the history unchanged. -/
theorem handle_switch_style_history (env : Env) (s : SessionState)
    (style : Option String) :
    (handle_switch_style env s style).1.history = s.history := by
  cases style with
  | none => rfl
  | some v =>
    simp only [handle_switch_style]
    by_cases hv : v = ""
    · rw [if_pos hv]
    · rw [if_neg hv]
      split
      · rfl
      · split
        · rw [end_session_state]
        · split
          · rw [end_session_state]
          · rw [send_question_history]

/-- Starting a session resets the history to empty. -/
theorem handle_start_history (env : Env) (s : SessionState)
    (style group pack difficulty : Option String) (mq dur : PyInt)
    (custom : Option (List PyItem)) (consent : Bool) :
    (handle_start env s style group pack difficulty mq dur custom
      consent).1.history = [] := by
  simp only [handle_start]
  rw [send_question_history]

/-- C7: each answer appends its (question, answer) pair and the history is
truncated to the last four entries, so it never exceeds four pairs; a closed
six-answer run ends with exactly the last four pairs, follow-ups included. -/
theorem C7_history_bound :
    (∀ (env : Env) (s : SessionState) (a : String) (m : Metrics),
      (handle_user_answer env s a m).1.history =
        lastN 4 (s.history ++ [(askedQuestion s, a)])) ∧
    (∀ (env : Env) (s : SessionState) (ev : Event),
      s.history.length ≤ 4 →
      (handle_message env s ev).1.history.length ≤ 4) ∧
    ((runEvents initialState
        [(.startSession none none none none .bad .bad
            (some [.str "Q1?", .str "Q2?", .str "Q3?"]) false, {}),
         (.userAnswer "idk" {}, {}),
         (.userAnswer "no clue" {}, {}),
         (.userAnswer "pass" {}, {}),
         (.userAnswer "skip" {}, {}),
         (.userAnswer "not sure" {}, {}),
         (.userAnswer "unsure" {}, {})]).1.history =
      [("Q2?", "pass"),
       ("Okay — pick a different example and tell me what you did and what changed?",
        "skip"),
       ("Q3?", "not sure"),
       ("Okay — pick a different example and tell me what you did and what changed?",
        "unsure")]) := by
  refine ⟨handle_user_answer_history, ?_, by decide⟩
  intro env s ev hlen
  cases ev with
  | startSession style group pack difficulty mq dur custom consent =>
    rw [show (handle_message env s (.startSession style group pack difficulty
        mq dur custom consent)).1 =
      (handle_start env s style group pack difficulty mq dur custom consent).1
      from rfl, handle_start_history]
    exact Nat.zero_le 4
  | switchStyle style =>
    rw [show (handle_message env s (.switchStyle style)).1 =
      (handle_switch_style env s style).1 from rfl, handle_switch_style_history]
    exact hlen
  | userClarification text =>
    rw [show (handle_message env s (.userClarification text)).1 =
      (handle_user_clarification env s text).1 from rfl,
      handle_user_clarification_state]
    exact hlen
  | userAnswer a m =>
    rw [show (handle_message env s (.userAnswer a m)).1 =
      (handle_user_answer env s a m).1 from rfl, handle_user_answer_history]
    exact lastN_length_le 4 _
  | ping => exact hlen
  | checkin => exact hlen
  | telemetryEvent => exact hlen
  | unknown t => exact hlen
  | nonStringType => exact hlen

/-- Witness for C7 at concrete inputs: an answer in the fresh state records one
pair, and a ping keeps an in-bound history in bound. -/
theorem C7_history_bound_witness :
    ((handle_user_answer {} initialState "hello" {}).1.history =
      lastN 4 (initialState.history ++ [(askedQuestion initialState, "hello")])) ∧
    (initialState.history.length ≤ 4 ∧
      (handle_message {} initialState .ping).1.history.length ≤ 4) :=
  ⟨C7_history_bound.1 {} initialState "hello" {},
   by decide, C7_history_bound.2.1 {} initialState .ping (by decide)⟩

/-- C9 counterexample: a switch_style with the unrecognized value "angry"
replies with nothing at all — in particular no error event — instead of the
error reply the spec promises for an unrecognized enumeration value. -/
theorem C9_silent_switch_counterexample :
    handle_message {} initialState (.switchStyle (some "angry")) =
      (initialState, []) ∧
    ((handle_message {} initialState (.switchStyle (some "angry"))).2.any
      (fun msg => match msg with
        | Msg.error _ => true
        | _ => false) = false) := by
  refine ⟨?_, ?_⟩ <;> decide

/-- C9 amended: an unrecognized or missing switch_style value mutates no state
and sends no reply (silently, without the error event the spec claims), while
an unrecognized message type and a non-string type do reply with an error
event and mutate no state. -/
theorem C9_unrecognized_handling :
    (∀ (env : Env) (s : SessionState) (v : String), styleOfString v = none →
      handle_message env s (.switchStyle (some v)) = (s, [])) ∧
    (∀ (env : Env) (s : SessionState),
      handle_message env s (.switchStyle none) = (s, [])) ∧
    (∀ (env : Env) (s : SessionState) (t : String),
      handle_message env s (.unknown t) =
        (s, [Msg.error ("Unrecognized message type: " ++ t)])) ∧
    (∀ (env : Env) (s : SessionState),
      handle_message env s .nonStringType =
        (s, [Msg.error "Message type must be a string."])) := by
  refine ⟨?_, fun env s => rfl, fun env s t => rfl, fun env s => rfl⟩
  intro env s v hv
  simp only [handle_message, handle_switch_style]
  by_cases hv0 : v = ""
  · rw [if_pos hv0]
  · rw [if_neg hv0, hv]

/-- Witness for C9 at the concrete value "angry": it names no known style and
the switch is a silent no-op. -/
theorem C9_unrecognized_handling_witness :
    styleOfString "angry" = none ∧
    handle_message {} initialState (.switchStyle (some "angry")) =
      (initialState, []) :=
  ⟨by decide, C9_unrecognized_handling.1 {} initialState "angry" (by decide)⟩

end InterviewCore
